import Mathlib

/-!
# twopence test server: the request-servicing core of `server/server.c`

A shallow embedding of the server semantics (`server_open_file_as`,
`server_run_command_as`, the inject / extract / command request handlers and
the per-transaction hooks of a command) together with theorems about them.

Conventions of the embedding

* C strings are lists of `char`s (`CString`), lengths are `List.length`.
* C `int`s that carry error codes, wait statuses and pids are `Int`; file
  descriptors that are known to be open are `Nat`.
* Everything the C code asks the operating system (does `open` succeed, does
  `waitpid` report a child, ...) is an explicit argument of the embedded
  function, so that theorems quantify over every answer the system can give.
* What a function does to the outside (packets queued for the client, channel
  operations, system calls) is appended to a log kept in the state.
-/

namespace Twopence

/-! ## Constants of the system headers -/

/-- A C string: the `char`s before the terminating NUL. -/
abbrev CString := List Char

/-- The errno value `ENOENT` of `<errno.h>` (Linux). -/
def ENOENT : Int := 2
/-- The errno value `EIO` of `<errno.h>` (Linux). -/
def EIO : Int := 5
/-- The errno value `EFAULT` of `<errno.h>` (Linux). -/
def EFAULT : Int := 14
/-- The errno value `EISDIR` of `<errno.h>` (Linux). -/
def EISDIR : Int := 21
/-- The errno value `EINVAL` of `<errno.h>` (Linux). -/
def EINVAL : Int := 22
/-- The errno value `ENAMETOOLONG` of `<errno.h>` (Linux). -/
def ENAMETOOLONG : Int := 36

/-- The signal number `SIGKILL` of `<signal.h>`. -/
def SIGKILL : Int := 9
/-- The signal number `SIGALRM` of `<signal.h>`. -/
def SIGALRM : Int := 14

/-- The open flag `O_RDONLY` of `<fcntl.h>`. -/
def O_RDONLY : Nat := 0
/-- The open flag `O_WRONLY` of `<fcntl.h>`. -/
def O_WRONLY : Nat := 1
/-- The open flag `O_CREAT` of `<fcntl.h>` (Linux, octal 0100). -/
def O_CREAT : Nat := 64
/-- The open flag `O_TRUNC` of `<fcntl.h>` (Linux, octal 01000). -/
def O_TRUNC : Nat := 512

/-- The largest `int`. -/
def INT_MAX : Nat := 2147483647
/-- The value of `(unsigned int) -1`, which is also `(uid_t) -1`. -/
def UINT_MAX : Nat := 4294967295

/-- Channel id of the standard input of a command (`protocol.h`). -/
def TWOPENCE_STDIN : Nat := 0
/-- Channel id of the standard output of a command (`protocol.h`). -/
def TWOPENCE_STDOUT : Nat := 1
/-- Channel id of the standard error of a command (`protocol.h`). -/
def TWOPENCE_STDERR : Nat := 2

/-! ## Wait statuses, as `<sys/wait.h>` of glibc decodes them -/

/-- The value of `(signed char) v`. -/
def toSignedChar (v : Int) : Int :=
  if v % 256 ≥ 128 then v % 256 - 256 else v % 256

/-- `WTERMSIG(st)` is `st & 0x7f`. -/
def WTERMSIG (st : Int) : Int := st % 128

/-- `WEXITSTATUS(st)` is `(st & 0xff00) >> 8`. -/
def WEXITSTATUS (st : Int) : Int := (st / 256) % 256

/-- `WIFEXITED(st)` is `WTERMSIG(st) == 0`. -/
def WIFEXITED (st : Int) : Bool := WTERMSIG st == 0

/-- `WIFSIGNALED(st)` is `((signed char) ((st & 0x7f) + 1) >> 1) > 0`. -/
def WIFSIGNALED (st : Int) : Bool := decide (toSignedChar (st % 128 + 1) / 2 > 0)

/-! ## Transactions and their channels -/

/-- What a transaction does to the outside: status packets queued for the
client, channel operations, signals. -/
inductive Action where
  | send_major (status : Int)
  | send_minor (status : Int)
  | send_timeout
  | send_eof (channel_id : Nat)
  | fail (code : Int)
  | fail2 (major minor : Int)
  | attach_sink (channel_id : Nat) (fd : Int)
  | attach_source (channel_id : Nat) (fd : Int)
  | close_sink (channel_id : Nat)
  | close_source (channel_id : Nat)
  | kill (pid sig : Int)
  deriving DecidableEq, Repr

/-- The end-of-file callbacks the server installs on a channel. -/
inductive Callback where
  | server_inject_file_write_eof
  | server_extract_file_source_read_eof
  deriving DecidableEq, Repr

/-- The receive hooks the server installs on a transaction. -/
inductive RecvHook where
  | server_run_command_recv
  deriving DecidableEq, Repr

/-- The send hooks the server installs on a transaction. -/
inductive SendHook where
  | server_run_command_send
  deriving DecidableEq, Repr

/-- One directional channel of a transaction (`twopence_trans_channel_t`). -/
structure Channel where
  id : Nat
  fd : Int
  read_eof : Bool := false
  name : Option CString := none
  callback : Option Callback := none
  deriving DecidableEq, Repr

/-- One transaction (`twopence_transaction_t`): the fields the server
semantics read and write, and the log of what it has done so far. -/
structure Transaction where
  pid : Int := 0
  status : Int := 0
  done : Bool := false
  sinks : List Channel := []
  sources : List Channel := []
  recv : Option RecvHook := none
  send : Option SendHook := none
  out : List Action := []
  deriving DecidableEq, Repr

/-- Modelled from the spec: `twopence_transaction_send_major` (transaction.c is
not part of the sources) queues a MAJOR status packet for the client. -/
def twopence_transaction_send_major (trans : Transaction) (status : Int) : Transaction :=
  { trans with out := trans.out ++ [Action.send_major status] }

/-- Modelled from the spec: `twopence_transaction_send_minor` queues a MINOR
status packet for the client. -/
def twopence_transaction_send_minor (trans : Transaction) (status : Int) : Transaction :=
  { trans with out := trans.out ++ [Action.send_minor status] }

/-- Modelled from the spec: `twopence_transaction_send_timeout` signals that the
command hit its alarm. -/
def twopence_transaction_send_timeout (trans : Transaction) : Transaction :=
  { trans with out := trans.out ++ [Action.send_timeout] }

/-- Modelled from the spec: `twopence_transaction_send_client` applied to
`twopence_protocol_build_eof_packet` queues an EOF packet for a channel. -/
def twopence_transaction_send_eof (trans : Transaction) (channel_id : Nat) : Transaction :=
  { trans with out := trans.out ++ [Action.send_eof channel_id] }

/-- Modelled from the spec: `twopence_transaction_fail` is a terminal failure
and marks the transaction done. -/
def twopence_transaction_fail (trans : Transaction) (code : Int) : Transaction :=
  { trans with out := trans.out ++ [Action.fail code], done := true }

/-- Modelled from the spec: `twopence_transaction_fail2` is a terminal failure
with a major and a minor code and marks the transaction done. -/
def twopence_transaction_fail2 (trans : Transaction) (major minor : Int) : Transaction :=
  { trans with out := trans.out ++ [Action.fail2 major minor], done := true }

/-- Modelled from the spec: `twopence_transaction_find_source` looks a source
channel up by its channel id. -/
def twopence_transaction_find_source (trans : Transaction) (channel_id : Nat) : Option Channel :=
  trans.sources.find? (fun ch => ch.id == channel_id)

/-- The read-EOF flag of a source channel. -/
def twopence_transaction_channel_is_read_eof (channel : Channel) : Bool :=
  channel.read_eof

/-- Modelled from the spec: `twopence_transaction_close_sink` closes the sink
with the given id; id zero means all sinks. Closing is idempotent. -/
def twopence_transaction_close_sink (trans : Transaction) (channel_id : Nat) : Transaction :=
  { trans with
    sinks := trans.sinks.filter (fun ch => !(channel_id == 0 || ch.id == channel_id)),
    out := trans.out ++ [Action.close_sink channel_id] }

/-- Modelled from the spec: `twopence_transaction_close_source` closes the
source with the given id; id zero means all sources. -/
def twopence_transaction_close_source (trans : Transaction) (channel_id : Nat) : Transaction :=
  { trans with
    sources := trans.sources.filter (fun ch => !(channel_id == 0 || ch.id == channel_id)),
    out := trans.out ++ [Action.close_source channel_id] }

/-- Modelled from the spec: `twopence_transaction_attach_local_sink` binds a
descriptor open for writing to a new sink channel; `ok = false` is the
failure that makes the C function return NULL. The result is the position of
the new channel among the sinks. -/
def twopence_transaction_attach_local_sink (ok : Bool) (trans : Transaction)
    (channel_id : Nat) (fd : Int) : Transaction × Option Nat :=
  if ok then
    ({ trans with
        sinks := trans.sinks ++ [{ id := channel_id, fd := fd }],
        out := trans.out ++ [Action.attach_sink channel_id fd] },
     some trans.sinks.length)
  else (trans, none)

/-- Modelled from the spec: `twopence_transaction_attach_local_source` binds a
descriptor open for reading to a new source channel. -/
def twopence_transaction_attach_local_source (ok : Bool) (trans : Transaction)
    (channel_id : Nat) (fd : Int) : Transaction × Option Nat :=
  if ok then
    ({ trans with
        sources := trans.sources ++ [{ id := channel_id, fd := fd }],
        out := trans.out ++ [Action.attach_source channel_id fd] },
     some trans.sources.length)
  else (trans, none)

/-- Apply `f` to the element at position `i` of a list. -/
def updateAt {α : Type} (f : α → α) : Nat → List α → List α
  | _, [] => []
  | 0, x :: xs => f x :: xs
  | i + 1, x :: xs => x :: updateAt f i xs

/-! ## The send hook of a command transaction -/

/-- What `waitpid(pid, &status, WNOHANG)` answers: its return value and the
status it stores when it reports a child. -/
structure WaitpidResult where
  ret : Int
  status : Int
  deriving DecidableEq, Repr

/-- The function `server_run_command_send`: the send hook of a command
transaction, polled on every tick. `w` is the answer of `waitpid`, which is
only consulted when `trans->pid` is non-zero. -/
def server_run_command_send (w : WaitpidResult) (trans : Transaction) : Transaction × Bool :=
  let pending_output := false
  let pending_output :=
    match twopence_transaction_find_source trans TWOPENCE_STDOUT with
    | some channel => if !twopence_transaction_channel_is_read_eof channel then true else pending_output
    | none => pending_output
  let pending_output :=
    match twopence_transaction_find_source trans TWOPENCE_STDERR with
    | some channel => if !twopence_transaction_channel_is_read_eof channel then true else pending_output
    | none => pending_output
  let trans :=
    if trans.pid != 0 then
      if w.ret > 0 then
        let trans := twopence_transaction_close_sink trans 0
        { trans with status := w.status, pid := 0 }
      else trans
    else trans
  let trans :=
    if !trans.done && trans.pid == 0 && !pending_output then
      let st := trans.status
      let trans :=
        if WIFEXITED st then
          let trans := twopence_transaction_send_major trans 0
          twopence_transaction_send_minor trans (WEXITSTATUS st)
        else if WIFSIGNALED st then
          if WTERMSIG st == SIGALRM then
            twopence_transaction_send_timeout trans
          else
            twopence_transaction_fail2 trans EFAULT (WTERMSIG st)
        else
          twopence_transaction_fail2 trans EFAULT 2
      { trans with done := true }
    else trans
  (trans, true)

/-! ## Vocabulary for statements about the hooks -/

/-- The status packets and terminal failures among the actions: MAJOR, MINOR,
TIMEOUT, and the calls of fail and fail2. -/
def Action.isStatus : Action → Bool
  | Action.send_major _ => true
  | Action.send_minor _ => true
  | Action.send_timeout => true
  | Action.fail _ => true
  | Action.fail2 _ _ => true
  | _ => false

/-- The terminal outcomes among the actions: MINOR, TIMEOUT, and a failing
MAJOR sent through fail2. -/
def Action.isTerminal : Action → Bool
  | Action.send_minor _ => true
  | Action.send_timeout => true
  | Action.fail2 _ _ => true
  | _ => false

/-- The actions a call appended to the log: what `after` did beyond `before`. -/
def emitted (before after : Transaction) : List Action :=
  after.out.drop before.out.length

/-- The status packets a call emitted. -/
def emittedStatus (before after : Transaction) : List Action :=
  (emitted before after).filter Action.isStatus

/-- A source channel with this id is attached and has not reached read-EOF. -/
def sourcePending (trans : Transaction) (channel_id : Nat) : Bool :=
  match twopence_transaction_find_source trans channel_id with
  | some channel => !channel.read_eof
  | none => false

/-- The stdout or the stderr source still has pending output. -/
def pendingOutput (trans : Transaction) : Bool :=
  sourcePending trans TWOPENCE_STDOUT || sourcePending trans TWOPENCE_STDERR

/-- The call reaps the child: the pid is non-zero and waitpid reports it. -/
def reaps (w : WaitpidResult) (trans : Transaction) : Bool :=
  trans.pid != 0 && decide (w.ret > 0)

/-- The pid of the transaction after the reap step of a call. -/
def pidAfterReap (w : WaitpidResult) (trans : Transaction) : Int :=
  if reaps w trans then 0 else trans.pid

/-- The recorded wait status after the reap step of a call. -/
def statusAfterReap (w : WaitpidResult) (trans : Transaction) : Int :=
  if reaps w trans then w.status else trans.status

/-- The transaction after the reap step of the hook. -/
def afterReap (w : WaitpidResult) (trans : Transaction) : Transaction :=
  if reaps w trans then
    { twopence_transaction_close_sink trans 0 with status := w.status, pid := 0 }
  else trans

/-- The transaction after the translation of the recorded status. -/
def afterReport (trans : Transaction) : Transaction :=
  let st := trans.status
  { (if WIFEXITED st then
      twopence_transaction_send_minor (twopence_transaction_send_major trans 0) (WEXITSTATUS st)
    else if WIFSIGNALED st then
      if WTERMSIG st == SIGALRM then twopence_transaction_send_timeout trans
      else twopence_transaction_fail2 trans EFAULT (WTERMSIG st)
    else twopence_transaction_fail2 trans EFAULT 2) with done := true }

/-- A running command transaction as `server_run_command` leaves it: child
1234, stdin sink on descriptor 5, stdout and stderr sources on 6 and 8. -/
def runningCommand : Transaction :=
  { pid := 1234,
    sinks := [{ id := 0, fd := 5, name := some ['s', 't', 'd', 'i', 'n'] }],
    sources := [{ id := 1, fd := 6, name := some ['s', 't', 'd', 'o', 'u', 't'] },
                { id := 2, fd := 8, name := some ['s', 't', 'd', 'e', 'r', 'r'] }],
    recv := some RecvHook.server_run_command_recv,
    send := some SendHook.server_run_command_send }

/-- The running command after both of its sources have reached read-EOF. -/
def drainedCommand : Transaction :=
  { runningCommand with
    sources := runningCommand.sources.map (fun ch => { ch with read_eof := true }) }

/-! ## Sequences of calls of the send hook -/

/-- One poll of the send hook: the answer waitpid would give, and the source
channels as the I/O pump has left them when the hook is called. -/
structure Tick where
  wait : WaitpidResult
  sources : List Channel
  deriving DecidableEq, Repr

/-- The transaction as the hook finds it at a tick. -/
def atTick (trans : Transaction) (k : Tick) : Transaction :=
  { trans with sources := k.sources }

/-- One call of `server_run_command_send` at a tick. -/
def sendTick (trans : Transaction) (k : Tick) : Transaction :=
  (server_run_command_send k.wait (atTick trans k)).1

/-- A sequence of calls of `server_run_command_send` on one transaction. -/
def sendTicks (trans : Transaction) (ks : List Tick) : Transaction :=
  ks.foldl sendTick trans

/-- In this call the child is reaped (the pid is zero after the reap step) and
the output is drained. -/
def tickReady (trans : Transaction) (k : Tick) : Bool :=
  pidAfterReap k.wait (atTick trans k) == 0 && !pendingOutput (atTick trans k)

/-- The number of terminal outcomes among some actions. -/
def terminalCount (l : List Action) : Nat :=
  (l.filter Action.isTerminal).length

/-! ## The process: credentials, descriptors, system calls -/

/-- The system calls the server semantics make, as they appear in the log of
the process. -/
inductive Syscall where
  | initgroups (user : CString) (gid : Nat)
  | setegid (gid : Nat)
  | seteuid (uid : Nat)
  | sys_open (path : CString) (oflags mode : Nat)
  | fstat (fd : Nat)
  | fchmod (fd mode : Nat)
  | close (fd : Int)
  | posix_openpt
  | dup (fd : Nat)
  | pipe
  | fork
  deriving DecidableEq, Repr

/-- The state of the server process that the semantics touch: real and
effective ids, the open descriptors, errno, and the log of system calls. -/
structure Process where
  ruid : Nat
  rgid : Nat
  euid : Nat
  egid : Nat
  fds : List Nat
  errno : Int := 0
  calls : List Syscall := []
  deriving DecidableEq, Repr

/-- How a function of this process ends: it returns a value, the process
aborts, or (after fork) the flow continues in the child, which ends in execve
or exit and never returns to the caller. -/
inductive Run (α : Type) where
  | ret (val : α) (proc : Process)
  | abort (proc : Process)
  | child (proc : Process)
  deriving Repr

/-- The lowest descriptor that is not open, which is what the kernel hands out. -/
def lowestFree (fds : List Nat) : Nat :=
  ((List.range (fds.length + 1)).find? (fun n => !fds.contains n)).getD 0

/-- The system call setegid: `err = none` is success, `some e` is failure with
errno `e`. -/
def sys_setegid (err : Option Int) (gid : Nat) (proc : Process) : Process × Int :=
  let proc := { proc with calls := proc.calls ++ [Syscall.setegid gid] }
  match err with
  | none => ({ proc with egid := gid }, 0)
  | some e => ({ proc with errno := e }, -1)

/-- The system call seteuid. -/
def sys_seteuid (err : Option Int) (uid : Nat) (proc : Process) : Process × Int :=
  let proc := { proc with calls := proc.calls ++ [Syscall.seteuid uid] }
  match err with
  | none => ({ proc with euid := uid }, 0)
  | some e => ({ proc with errno := e }, -1)

/-- The library call initgroups; the supplementary groups are not modelled. -/
def sys_initgroups (err : Option Int) (user : CString) (gid : Nat) (proc : Process) :
    Process × Int :=
  let proc := { proc with calls := proc.calls ++ [Syscall.initgroups user gid] }
  match err with
  | none => (proc, 0)
  | some e => ({ proc with errno := e }, -1)

/-- The system call open: on success the lowest free descriptor is opened. -/
def sys_open (err : Option Int) (path : CString) (oflags mode : Nat) (proc : Process) :
    Process × Int :=
  let proc := { proc with calls := proc.calls ++ [Syscall.sys_open path oflags mode] }
  match err with
  | none => ({ proc with fds := proc.fds ++ [lowestFree proc.fds] }, (lowestFree proc.fds : Int))
  | some e => ({ proc with errno := e }, -1)

/-- The open descriptors without the descriptor `fd`. -/
def withoutFd (fd : Int) (fds : List Nat) : List Nat :=
  fds.filter (fun n => decide ((n : Int) ≠ fd))

/-- The system call close: the descriptor is no longer open. -/
def sys_close (fd : Int) (proc : Process) : Process :=
  { proc with
    calls := proc.calls ++ [Syscall.close fd],
    fds := withoutFd fd proc.fds }

/-- The system call fstat; only whether it fails is decided here, the mode it
stores is a separate answer. -/
def sys_fstat (err : Option Int) (fd : Nat) (proc : Process) : Process × Int :=
  let proc := { proc with calls := proc.calls ++ [Syscall.fstat fd] }
  match err with
  | none => (proc, 0)
  | some e => ({ proc with errno := e }, -1)

/-- The system call fchmod. -/
def sys_fchmod (err : Option Int) (fd mode : Nat) (proc : Process) : Process × Int :=
  let proc := { proc with calls := proc.calls ++ [Syscall.fchmod fd mode] }
  match err with
  | none => (proc, 0)
  | some e => ({ proc with errno := e }, -1)

/-! ## Users -/

/-- The entry `struct passwd` of a user. -/
structure passwd where
  pw_name : CString
  pw_uid : Nat
  pw_gid : Nat
  pw_dir : CString
  deriving DecidableEq, Repr

/-- The user database: for a known name, the uid, gid and home directory. -/
abbrev UserDb := CString → Option (Nat × Nat × CString)

/-- The library call getpwnam: the entry of the user with this name. -/
def getpwnam (db : UserDb) (username : CString) : Option passwd :=
  match db username with
  | some (uid, gid, dir) => some { pw_name := username, pw_uid := uid, pw_gid := gid, pw_dir := dir }
  | none => none

/-- The function `server_get_user`: the entry of the user, or NULL with
`*status = ENOENT`. The second component is `*status`, `none` while it has
never been assigned. -/
def server_get_user (db : UserDb) (username : CString) (status : Option Int) :
    Option passwd × Option Int :=
  let pwd := getpwnam db username
  let status := if pwd.isNone then some ENOENT else status
  (pwd, status)

/-- The struct `saved_ids`. -/
structure saved_ids where
  uid : Nat
  gid : Nat
  deriving DecidableEq, Repr

/-- The function `server_restore_privileges`. The two answers say whether the
seteuid and the setegid of the restoration fail. -/
def server_restore_privileges (seteuid_err setegid_err : Option Int) (saved : saved_ids)
    (proc : Process) : Run Unit :=
  if saved.uid == UINT_MAX then Run.ret () proc
  else
    let proc := (sys_seteuid seteuid_err saved.uid proc).1
    if proc.euid != saved.uid then Run.abort proc
    else
      let proc := (sys_setegid setegid_err saved.gid proc).1
      if proc.egid != saved.gid then Run.abort proc
      else Run.ret () proc

/-- The string "root". -/
def rootName : CString := ['r', 'o', 'o', 't']

/-- The function `server_build_path`'s call of snprintf with the format
"%s/%s": the return value (the length it would have printed, or -1 when that
does not fit an int) and the contents of the buffer of the given size. -/
def snprintf_path (size : Nat) (dir file : CString) : Int × CString :=
  let full := dir ++ ['/'] ++ file
  (if full.length ≤ INT_MAX then (full.length : Int) else -1, full.take (size - 1))

/-- The function `server_build_path`: `none` is NULL. The return value of
snprintf is stored in an unsigned int. -/
def server_build_path (PATH_MAX : Nat) (dir file : CString) : Option CString :=
  let r := snprintf_path PATH_MAX dir file
  let total : Nat := (r.1 % 4294967296).toNat
  if total ≥ PATH_MAX then none
  else some r.2

/-- What the system answers to the calls of `server_open_file_as`: for each
call `none` for success or the errno of its failure, and whether fstat reports
a regular file. -/
structure OpenAnswers where
  initgroups_err : Option Int := none
  setegid_err : Option Int := none
  seteuid_err : Option Int := none
  open_err : Option Int := none
  restore_seteuid_err : Option Int := none
  restore_setegid_err : Option Int := none
  fstat_err : Option Int := none
  st_isreg : Bool := true
  fchmod_err : Option Int := none
  deriving DecidableEq, Repr

/-- The condition of the if in `server_change_hats_temporarily`:
`initgroups(..) < 0 || setegid(..) < 0 || seteuid(..) < 0`, evaluated from
left to right and stopping at the first failure. The number is negative
exactly when one of the three calls failed. -/
def drop_privileges (a : OpenAnswers) (user : passwd) (proc : Process) : Process × Int :=
  let r1 := sys_initgroups a.initgroups_err user.pw_name user.pw_gid proc
  if r1.2 < 0 then r1
  else
    let r2 := sys_setegid a.setegid_err user.pw_gid r1.1
    if r2.2 < 0 then r2
    else sys_seteuid a.seteuid_err user.pw_uid r2.1

/-- The function `server_change_hats_temporarily`. It returns the boolean,
the saved ids and `*status`. -/
def server_change_hats_temporarily (a : OpenAnswers) (user : passwd) (status : Option Int)
    (proc : Process) : Run (Bool × saved_ids × Option Int) :=
  if user.pw_name == rootName then
    Run.ret (true, { uid := UINT_MAX, gid := 0 }, status) proc
  else
    let saved : saved_ids := { uid := proc.ruid, gid := proc.rgid }
    let r := drop_privileges a user proc
    if r.2 < 0 then
      let status := some r.1.errno
      match server_restore_privileges a.restore_seteuid_err a.restore_setegid_err saved r.1 with
      | Run.ret _ proc => Run.ret (false, saved, status) proc
      | Run.abort proc => Run.abort proc
      | Run.child proc => Run.child proc
    else Run.ret (true, saved, status) r.1

/-- The tail of `server_open_file_as` after the open: fstat, the regular-file
check, fchmod. It returns the return value and `*status`. -/
def server_open_file_as_check (a : OpenAnswers) (filemode oflags : Nat) (fd : Int)
    (status : Option Int) (proc : Process) : Run (Int × Option Int) :=
  if fd < 0 then Run.ret (-1, status) proc
  else
    let r := sys_fstat a.fstat_err fd.toNat proc
    if r.2 < 0 then
      let status := some r.1.errno
      Run.ret (-1, status) (sys_close fd r.1)
    else if !a.st_isreg then
      let status := some EISDIR
      Run.ret (-1, status) (sys_close fd r.1)
    else
      if oflags != O_RDONLY then
        let r := sys_fchmod a.fchmod_err fd.toNat filemode r.1
        if r.2 < 0 then
          let status := some r.1.errno
          Run.ret (-1, status) (sys_close fd r.1)
        else Run.ret (fd, status) r.1
      else Run.ret (fd, status) r.1

/-- The function `server_open_file_as`. It returns the return value (a
descriptor, or a failure value) and `*status`, which is `none` while it has
never been assigned. -/
def server_open_file_as (db : UserDb) (PATH_MAX : Nat) (a : OpenAnswers)
    (username filename : CString) (filemode oflags : Nat) (status : Option Int)
    (proc : Process) : Run (Int × Option Int) :=
  match server_get_user db username status with
  | (none, status) => Run.ret (-1, status) proc
  | (some user, status) =>
    let built : Option CString :=
      if filename.head? != some '/' then server_build_path PATH_MAX user.pw_dir filename
      else some filename
    match built with
    | none =>
      let status := some ENAMETOOLONG
      -- the C code says return false here
      Run.ret (0, status) proc
    | some filename =>
      if username == rootName then
        let r := sys_open a.open_err filename oflags filemode proc
        let status := if r.2 < 0 then some r.1.errno else status
        server_open_file_as_check a filemode oflags r.2 status r.1
      else
        match server_change_hats_temporarily a user status proc with
        | Run.abort proc => Run.abort proc
        | Run.child proc => Run.child proc
        | Run.ret (false, _, status) proc => Run.ret (-1, status) proc
        | Run.ret (true, saved, status) proc =>
          let r := sys_open a.open_err filename oflags filemode proc
          let status := if r.2 < 0 then some r.1.errno else status
          match server_restore_privileges a.restore_seteuid_err a.restore_setegid_err saved r.1 with
          | Run.abort proc => Run.abort proc
          | Run.child proc => Run.child proc
          | Run.ret _ proc => server_open_file_as_check a filemode oflags r.2 status proc

/-- The process state in which a run ends. -/
def Run.proc {α : Type} : Run α → Process
  | Run.ret _ proc => proc
  | Run.abort proc => proc
  | Run.child proc => proc

/-- The value a run returns, when it returns. -/
def Run.val {α : Type} : Run α → Option α
  | Run.ret val _ => some val
  | Run.abort _ => none
  | Run.child _ => none

/-- The run ends in abort. -/
def Run.aborts {α : Type} : Run α → Bool
  | Run.abort _ => true
  | _ => false

/-- The run returns to its caller. -/
def Run.returns {α : Type} : Run α → Bool
  | Run.ret _ _ => true
  | _ => false

/-! ## File transfers -/

/-- The request of a file transfer (`twopence_file_xfer_t`): user, remote file
name and remote mode bits. -/
structure twopence_file_xfer_t where
  user : CString
  remote_name : CString
  remote_mode : Nat
  deriving DecidableEq, Repr

/-- Modelled from the spec: the setters of the end-of-file hooks
(`twopence_transaction_channel_set_callback_write_eof` on a sink) store a
one-shot hook in the channel. -/
def twopence_transaction_channel_set_callback_write_eof (trans : Transaction) (sink : Nat)
    (cb : Callback) : Transaction :=
  { trans with sinks := updateAt (fun ch => { ch with callback := some cb }) sink trans.sinks }

/-- Modelled from the spec: `twopence_transaction_channel_set_callback_read_eof`
stores a one-shot hook in a source channel. -/
def twopence_transaction_channel_set_callback_read_eof (trans : Transaction) (source : Nat)
    (cb : Callback) : Transaction :=
  { trans with
    sources := updateAt (fun ch => { ch with callback := some cb }) source trans.sources }

/-- Modelled from the spec: `twopence_transaction_channel_set_name` gives a
channel its symbolic name for diagnostics. -/
def twopence_transaction_channel_set_name (chans : List Channel) (channel : Nat)
    (name : CString) : List Channel :=
  updateAt (fun ch => { ch with name := some name }) channel chans

/-- The function `server_inject_file`. `attach_ok` says whether attaching the
sink succeeds. The local `status` starts unassigned; it is only read after a
negative return of `server_open_file_as`. -/
def server_inject_file (db : UserDb) (PATH_MAX : Nat) (a : OpenAnswers) (attach_ok : Bool)
    (trans : Transaction) (xfer : twopence_file_xfer_t) (proc : Process) :
    Run (Transaction × Bool) :=
  let filename := xfer.remote_name
  let username := xfer.user
  let filemode := xfer.remote_mode
  match server_open_file_as db PATH_MAX a username filename filemode
      (O_WRONLY ||| O_CREAT ||| O_TRUNC) none proc with
  | Run.abort proc => Run.abort proc
  | Run.child proc => Run.child proc
  | Run.ret (fd, status) proc =>
    if fd < 0 then
      Run.ret (twopence_transaction_fail trans (status.getD 0), false) proc
    else
      match twopence_transaction_attach_local_sink attach_ok trans 0 fd with
      | (trans, none) => Run.ret (trans, false) (sys_close fd proc)
      | (trans, some sink) =>
        let trans := twopence_transaction_channel_set_callback_write_eof trans sink
          Callback.server_inject_file_write_eof
        let trans := twopence_transaction_send_major trans 0
        Run.ret (trans, true) proc

/-- The function `server_extract_file`; the file is opened with mode 0600 and
`O_RDONLY`. -/
def server_extract_file (db : UserDb) (PATH_MAX : Nat) (a : OpenAnswers) (attach_ok : Bool)
    (trans : Transaction) (xfer : twopence_file_xfer_t) (proc : Process) :
    Run (Transaction × Bool) :=
  let username := xfer.user
  let filename := xfer.remote_name
  match server_open_file_as db PATH_MAX a username filename 384 O_RDONLY none proc with
  | Run.abort proc => Run.abort proc
  | Run.child proc => Run.child proc
  | Run.ret (fd, status) proc =>
    if fd < 0 then
      Run.ret (twopence_transaction_fail trans (status.getD 0), false) proc
    else
      match twopence_transaction_attach_local_source attach_ok trans 0 fd with
      | (trans, none) =>
        let trans := twopence_transaction_fail trans EIO
        Run.ret (trans, false) (sys_close fd proc)
      | (trans, some source) =>
        let trans := twopence_transaction_channel_set_callback_read_eof trans source
          Callback.server_extract_file_source_read_eof
        Run.ret (trans, true) proc

/-! ## Sample inputs -/

/-- The user name "alice". -/
def aliceName : CString := ['a', 'l', 'i', 'c', 'e']

/-- A user database that knows root and alice (uid 1000, gid 100, home
"/home/alice"). -/
def sampleUsers : UserDb := fun name =>
  if name = rootName then some (0, 0, ['/', 'r', 'o', 'o', 't'])
  else if name = aliceName then
    some (1000, 100, ['/', 'h', 'o', 'm', 'e', '/', 'a', 'l', 'i', 'c', 'e'])
  else none

/-- The server process running as root with descriptors 0 to 3 open. -/
def serverProcess : Process :=
  { ruid := 0, rgid := 0, euid := 0, egid := 0, fds := [0, 1, 2, 3] }

/-- A relative file name of 4096 characters. -/
def longName : CString := List.replicate 4096 'a'

/-- The answers of a system on which every call succeeds. -/
def allSucceed : OpenAnswers := {}

/-- The answers of a system on which the open fails with EACCES (13). -/
def openDenied : OpenAnswers := { open_err := some 13 }

/-! ## Launching a command -/

/-- The request of a command (`twopence_command_t`): user, command line,
timeout in seconds and the request for a tty. -/
structure twopence_command_t where
  user : CString
  command : CString
  timeout : Nat := 0
  request_tty : Bool := false
  deriving DecidableEq, Repr

/-- What the system answers to the calls of `server_run_command_as`: for
posix_openpt, the two dups and the k-th pipe, `none` for success or the errno
of the failure; whether building argv yields NULL; and the return value of
fork as the calling process sees it (negative on failure, with its errno,
zero in the child, the pid of the child in the parent). -/
structure RunAnswers where
  posix_openpt_err : Option Int := none
  dup0_err : Option Int := none
  dup1_err : Option Int := none
  pipe_err : Nat → Option Int := fun _ => none
  argv_null : Bool := false
  fork_ret : Int := 1234
  fork_errno : Int := 0

/-- The library call posix_openpt: on success the lowest free descriptor. -/
def sys_posix_openpt (err : Option Int) (proc : Process) : Process × Int :=
  let proc := { proc with calls := proc.calls ++ [Syscall.posix_openpt] }
  match err with
  | none => ({ proc with fds := proc.fds ++ [lowestFree proc.fds] }, (lowestFree proc.fds : Int))
  | some e => ({ proc with errno := e }, -1)

/-- The system call dup of an open descriptor: on success the lowest free
descriptor. -/
def sys_dup (err : Option Int) (fd : Nat) (proc : Process) : Process × Int :=
  let proc := { proc with calls := proc.calls ++ [Syscall.dup fd] }
  match err with
  | none => ({ proc with fds := proc.fds ++ [lowestFree proc.fds] }, (lowestFree proc.fds : Int))
  | some e => ({ proc with errno := e }, -1)

/-- The system call pipe: on success the two lowest free descriptors, read end
first. The result is the return value and the two descriptors. -/
def sys_pipe (err : Option Int) (proc : Process) : Process × Int × Int × Int :=
  let proc := { proc with calls := proc.calls ++ [Syscall.pipe] }
  match err with
  | none =>
    let rd := lowestFree proc.fds
    let wr := lowestFree (proc.fds ++ [rd])
    ({ proc with fds := proc.fds ++ [rd, wr] }, 0, (rd : Int), (wr : Int))
  | some e => ({ proc with errno := e }, -1, 0, 0)

/-- The system call fork, seen from the calling flow. -/
def sys_fork (ret errno : Int) (proc : Process) : Process × Int :=
  let proc := { proc with calls := proc.calls ++ [Syscall.fork] }
  if ret < 0 then ({ proc with errno := errno }, ret) else (proc, ret)

/-- The locals of `server_run_command_as` that its labels `failed` and `out`
read, together with the out-parameters. -/
structure LaunchState where
  pipefds : List Int
  child_fds : Int × Int × Int
  parent_fds : Int × Int × Int
  pty_master : Int
  nfds : Nat
  pid : Int
  status : Option Int
  deriving DecidableEq, Repr

/-- The helper `__close_fds`. -/
def __close_fds (fd_list : Int × Int × Int) (proc : Process) : Process :=
  sys_close fd_list.2.2 (sys_close fd_list.2.1 (sys_close fd_list.1 proc))

/-- The label `out` of `server_run_command_as`: free argv, close the master
pty if there is one, return pid. The result is the pid, `parent_fds` and
`*status`. -/
def server_run_command_as_out (s : LaunchState) (proc : Process) :
    Run (Int × (Int × Int × Int) × Option Int) :=
  let proc := if s.pty_master ≥ 0 then sys_close s.pty_master proc else proc
  Run.ret (s.pid, s.parent_fds, s.status) proc

/-- The loop `while (nfds--)` of the label `failed`: close both ends of the
pipes created so far, the last one first. -/
def close_pipes (pipefds : List Int) : Nat → Process → Process
  | 0, proc => proc
  | nfds + 1, proc =>
    close_pipes pipefds nfds
      (sys_close (pipefds.getD (2 * nfds + 1) 0) (sys_close (pipefds.getD (2 * nfds) 0) proc))

/-- The label `failed` of `server_run_command_as`. -/
def server_run_command_as_failed (s : LaunchState) (proc : Process) :
    Run (Int × (Int × Int × Int) × Option Int) :=
  server_run_command_as_out s (close_pipes s.pipefds s.nfds proc)

/-- The loop `for (nfds = 0; nfds < 3; ++nfds)` that creates the pipes; the
first argument counts the iterations that are left. The boolean is false when
a pipe call failed; `nfds` is then the number of pipes created before it. -/
def create_pipes (a : RunAnswers) : Nat → LaunchState → Process → Bool × LaunchState × Process
  | 0, s, proc => (true, s, proc)
  | todo + 1, s, proc =>
    let r := sys_pipe (a.pipe_err s.nfds) proc
    if r.2.1 < 0 then
      (false, { s with status := some r.1.errno }, r.1)
    else
      create_pipes a todo
        { s with
          pipefds := (s.pipefds.set (2 * s.nfds) r.2.2.1).set (2 * s.nfds + 1) r.2.2.2,
          nfds := s.nfds + 1 }
        r.1

/-- The part of `server_run_command_as` from the building of argv to the
return in the parent. After a successful fork the child flow (setsid, the
permanent change of hats, dup2 onto 0, 1, 2, execve) is the outcome
`Run.child`. -/
def server_run_command_as_spawn (a : RunAnswers) (s : LaunchState) (proc : Process) :
    Run (Int × (Int × Int × Int) × Option Int) :=
  if a.argv_null then
    server_run_command_as_failed { s with status := some EINVAL } proc
  else
    let r := sys_fork a.fork_ret a.fork_errno proc
    let s := { s with pid := r.2 }
    if r.2 < 0 then
      server_run_command_as_failed { s with status := some r.1.errno } r.1
    else if r.2 == 0 then Run.child r.1
    else
      server_run_command_as_out s (__close_fds s.child_fds r.1)

/-- The function `server_run_command_as`. `parent_fds` and `child_fds` are
the contents of the arrays at entry. The result is the pid, `parent_fds` and
`*status`. -/
def server_run_command_as (db : UserDb) (a : RunAnswers) (cmd : twopence_command_t)
    (parent_fds child_fds : Int × Int × Int) (status : Option Int) (proc : Process) :
    Run (Int × (Int × Int × Int) × Option Int) :=
  match server_get_user db cmd.user status with
  | (none, status) => Run.ret (-1, parent_fds, status) proc
  | (some _, status) =>
    let s : LaunchState :=
      { pipefds := List.replicate 6 (-1515870811), child_fds := child_fds,
        parent_fds := parent_fds, pty_master := -1, nfds := 0, pid := -1, status := status }
    if cmd.request_tty then
      let r := sys_posix_openpt a.posix_openpt_err proc
      let s := { s with pty_master := r.2 }
      if r.2 < 0 then
        server_run_command_as_failed { s with status := some r.1.errno } r.1
      else
        let d0 := sys_dup a.dup0_err r.2.toNat r.1
        let d1 := sys_dup a.dup1_err r.2.toNat d0.1
        let s := { s with child_fds := (-1, -1, -1), parent_fds := (d0.2, d1.2, -1) }
        server_run_command_as_spawn a s d1.1
    else
      match create_pipes a 3 s proc with
      | (false, s, proc) => server_run_command_as_failed s proc
      | (true, s, proc) =>
        let s := { s with
          child_fds := (s.pipefds.getD 0 0, s.pipefds.getD 3 0, s.pipefds.getD 5 0),
          parent_fds := (s.pipefds.getD 1 0, s.pipefds.getD 2 0, s.pipefds.getD 4 0) }
        server_run_command_as_spawn a s proc

/-! ## The command request and its receive hook -/

/-- The packet type of an interrupt (`TWOPENCE_PROTO_TYPE_INTR` of protocol.h). -/
def TWOPENCE_PROTO_TYPE_INTR : Char := 'I'

/-- The header of a packet (`twopence_hdr_t`); only the type is read here. -/
structure twopence_hdr_t where
  type : Char
  deriving DecidableEq, Repr

/-- The function `server_run_command_recv`: the receive hook of a command
transaction. -/
def server_run_command_recv (trans : Transaction) (hdr : twopence_hdr_t) : Transaction × Bool :=
  if hdr.type == TWOPENCE_PROTO_TYPE_INTR then
    if trans.pid != 0 && !trans.done then
      let trans := { trans with out := trans.out ++ [Action.kill (-trans.pid) SIGKILL] }
      let trans := twopence_transaction_close_sink trans 0
      let trans := twopence_transaction_close_source trans 0
      (trans, true)
    else (trans, true)
  else (trans, true)

/-- The label `failed` of `server_run_command`: fail the transaction with EIO
and close the descriptors that were not attached. -/
def server_run_command_failed (trans : Transaction) (command_fds : Int × Int × Int)
    (nattached : Nat) (proc : Process) : Run (Transaction × Bool) :=
  let trans := twopence_transaction_fail2 trans EIO 0
  let rest := [command_fds.1, command_fds.2.1, command_fds.2.2].drop nattached
  Run.ret (trans, false) (rest.foldl (fun proc fd => sys_close fd proc) proc)

/-- The end of the successful path of `server_run_command`: install the hooks
and remember the pid. -/
def server_run_command_install (trans : Transaction) (pid : Int) : Transaction :=
  { trans with
    recv := some RecvHook.server_run_command_recv,
    send := some SendHook.server_run_command_send,
    pid := pid }

/-- The function `server_run_command`. The three booleans say whether
attaching the stdin sink, the stdout source and the stderr source succeeds;
`command_fds` and `child_fds` are the contents of the local arrays at entry. -/
def server_run_command (db : UserDb) (a : RunAnswers)
    (attach_stdin attach_stdout attach_stderr : Bool)
    (trans : Transaction) (cmd : twopence_command_t)
    (command_fds child_fds : Int × Int × Int) (proc : Process) : Run (Transaction × Bool) :=
  match server_run_command_as db a cmd command_fds child_fds none proc with
  | Run.abort proc => Run.abort proc
  | Run.child proc => Run.child proc
  | Run.ret (pid, command_fds, status) proc =>
    if pid < 0 then
      Run.ret (twopence_transaction_fail2 trans (status.getD 0) 0, false) proc
    else
      match twopence_transaction_attach_local_sink attach_stdin trans TWOPENCE_STDIN
          command_fds.1 with
      | (trans, none) => server_run_command_failed trans command_fds 0 proc
      | (trans, some channel) =>
        let trans := { trans with
          sinks := twopence_transaction_channel_set_name trans.sinks channel
            ['s', 't', 'd', 'i', 'n'] }
        match twopence_transaction_attach_local_source attach_stdout trans TWOPENCE_STDOUT
            command_fds.2.1 with
        | (trans, none) => server_run_command_failed trans command_fds 1 proc
        | (trans, some channel) =>
          let trans := { trans with
            sources := twopence_transaction_channel_set_name trans.sources channel
              ['s', 't', 'd', 'o', 'u', 't'] }
          if command_fds.2.2 ≥ 0 then
            match twopence_transaction_attach_local_source attach_stderr trans TWOPENCE_STDERR
                command_fds.2.2 with
            | (trans, none) => server_run_command_failed trans command_fds 2 proc
            | (trans, some channel) =>
              let trans := { trans with
                sources := twopence_transaction_channel_set_name trans.sources channel
                  ['s', 't', 'd', 'e', 'r', 'r'] }
              Run.ret (server_run_command_install trans pid, true) proc
          else
            let trans := twopence_transaction_send_eof trans TWOPENCE_STDERR
            Run.ret (server_run_command_install trans pid, true) proc

/-- The command "echo hi" for root, with pipes. -/
def echoCommand : twopence_command_t :=
  { user := rootName, command := ['e', 'c', 'h', 'o', ' ', 'h', 'i'] }

/-- The command "echo hi" for root, on a tty. -/
def echoCommandTty : twopence_command_t :=
  { user := rootName, command := ['e', 'c', 'h', 'o', ' ', 'h', 'i'], request_tty := true }

/-- The command "echo hi" for the user "nobodysuch", whom the sample database
does not know. -/
def nobodyCommand : twopence_command_t :=
  { user := ['n', 'o', 'b', 'o', 'd', 'y', 's', 'u', 'c', 'h'],
    command := ['e', 'c', 'h', 'o', ' ', 'h', 'i'] }

/-- The condition under which the receive hook acts: the packet is an
interrupt, the pid is non-zero and the transaction is not done. -/
def interruptApplies (trans : Transaction) (hdr : twopence_hdr_t) : Bool :=
  hdr.type == TWOPENCE_PROTO_TYPE_INTR && trans.pid != 0 && !trans.done

/-- The answers of a system on which every call of the launcher succeeds and
fork returns the pid 1234. -/
def launchSucceeds : RunAnswers := {}

/-- The answers of a system on which fork fails with EAGAIN (11). -/
def forkFails : RunAnswers := { fork_ret := -1, fork_errno := 11 }

/-! # Theorems -/

/-! ## Lemmas about the send hook -/

theorem emitted_append (t u : Transaction) (l : List Action) (h : u.out = t.out ++ l) :
    emitted t u = l := by
  simp [emitted, h]

/-- The pending-output flag computed by the hook is `pendingOutput`. -/
theorem pending_flag_eq (trans : Transaction) :
    (match twopence_transaction_find_source trans TWOPENCE_STDERR with
      | some channel =>
        if !twopence_transaction_channel_is_read_eof channel then true
        else
          (match twopence_transaction_find_source trans TWOPENCE_STDOUT with
            | some channel => if !twopence_transaction_channel_is_read_eof channel then true else false
            | none => false)
      | none =>
          (match twopence_transaction_find_source trans TWOPENCE_STDOUT with
            | some channel => if !twopence_transaction_channel_is_read_eof channel then true else false
            | none => false)) = pendingOutput trans := by
  unfold pendingOutput sourcePending twopence_transaction_channel_is_read_eof
  cases twopence_transaction_find_source trans TWOPENCE_STDERR <;>
    cases twopence_transaction_find_source trans TWOPENCE_STDOUT <;> simp
  · rename_i a b
    cases a.read_eof <;> cases b.read_eof <;> simp

/-- The hook is the reap step followed by the guarded report step. -/
theorem server_run_command_send_eq (w : WaitpidResult) (trans : Transaction) :
    server_run_command_send w trans =
      (if !(afterReap w trans).done && (afterReap w trans).pid == 0 && !pendingOutput trans
        then afterReport (afterReap w trans) else afterReap w trans, true) := by
  unfold server_run_command_send
  simp only [pending_flag_eq]
  have h : (if trans.pid != 0 then
      if w.ret > 0 then
        { twopence_transaction_close_sink trans 0 with status := w.status, pid := 0 }
      else trans
    else trans) = afterReap w trans := by
    unfold afterReap reaps
    by_cases h1 : trans.pid = 0 <;> by_cases h2 : w.ret > 0 <;> simp [h1, h2]
  simp only [h]
  rfl

theorem afterReap_pid (w : WaitpidResult) (trans : Transaction) :
    (afterReap w trans).pid = pidAfterReap w trans := by
  unfold afterReap pidAfterReap
  split <;> rfl

theorem afterReap_status (w : WaitpidResult) (trans : Transaction) :
    (afterReap w trans).status = statusAfterReap w trans := by
  unfold afterReap statusAfterReap
  split <;> rfl

theorem afterReap_done (w : WaitpidResult) (trans : Transaction) :
    (afterReap w trans).done = trans.done := by
  unfold afterReap
  split <;> rfl

theorem afterReap_out (w : WaitpidResult) (trans : Transaction) :
    (afterReap w trans).out =
      trans.out ++ (if reaps w trans then [Action.close_sink 0] else []) := by
  unfold afterReap
  split <;> simp [twopence_transaction_close_sink]

theorem afterReport_done (trans : Transaction) : (afterReport trans).done = true := rfl

theorem afterReport_status (trans : Transaction) :
    (afterReport trans).status = trans.status := by
  unfold afterReport
  simp only
  split
  · rfl
  · split
    · split <;> rfl
    · rfl

theorem afterReport_pid (trans : Transaction) : (afterReport trans).pid = trans.pid := by
  unfold afterReport
  simp only
  split
  · rfl
  · split
    · split <;> rfl
    · rfl

/-- The packets of the report step, as a function of the recorded status. -/
theorem afterReport_out (trans : Transaction) :
    (afterReport trans).out = trans.out ++
      (if WIFEXITED trans.status then
        [Action.send_major 0, Action.send_minor (WEXITSTATUS trans.status)]
      else if WIFSIGNALED trans.status then
        if WTERMSIG trans.status = SIGALRM then [Action.send_timeout]
        else [Action.fail2 EFAULT (WTERMSIG trans.status)]
      else [Action.fail2 EFAULT 2]) := by
  unfold afterReport
  simp only
  by_cases h1 : WIFEXITED trans.status = true
  · simp [h1, twopence_transaction_send_major, twopence_transaction_send_minor]
  · by_cases h2 : WIFSIGNALED trans.status = true
    · by_cases h3 : WTERMSIG trans.status = SIGALRM
      · simp [h1, h2, h3, twopence_transaction_send_timeout]
      · simp [h1, h2, h3, twopence_transaction_fail2]
    · simp [h1, h2, twopence_transaction_fail2]

/-- A normal exit is not a death by signal. -/
theorem WIFEXITED_not_WIFSIGNALED (st : Int) (h : WIFEXITED st = true) :
    WIFSIGNALED st = false := by
  unfold WIFEXITED WTERMSIG at h
  unfold WIFSIGNALED toSignedChar
  have h0 : st % 128 = 0 := by simpa using h
  rw [h0]
  decide

/-- Claim C1: in a call of `server_run_command_send` on a transaction that is
not done, whose pid is zero after the reap step of the call and which has no
pending stdout or stderr output, the recorded wait status `st` is translated
as follows and done is set: a normal exit emits MAJOR 0 followed by MINOR with
the exit code of `st`; death by SIGALRM emits TIMEOUT; death by another signal
`s` calls fail2(EFAULT, s); every other status calls fail2(EFAULT, 2). These
are the only status packets of the call. -/
theorem server_run_command_send_translates_status (w : WaitpidResult) (trans : Transaction)
    (hdone : trans.done = false) (hpid : pidAfterReap w trans = 0)
    (hpending : pendingOutput trans = false) :
    (server_run_command_send w trans).1.done = true ∧
    (server_run_command_send w trans).1.status = statusAfterReap w trans ∧
    (WIFEXITED (statusAfterReap w trans) = true →
      emittedStatus trans (server_run_command_send w trans).1 =
        [Action.send_major 0, Action.send_minor (WEXITSTATUS (statusAfterReap w trans))]) ∧
    (WIFSIGNALED (statusAfterReap w trans) = true →
      WTERMSIG (statusAfterReap w trans) = SIGALRM →
      emittedStatus trans (server_run_command_send w trans).1 = [Action.send_timeout]) ∧
    (WIFSIGNALED (statusAfterReap w trans) = true →
      WTERMSIG (statusAfterReap w trans) ≠ SIGALRM →
      emittedStatus trans (server_run_command_send w trans).1 =
        [Action.fail2 EFAULT (WTERMSIG (statusAfterReap w trans))]) ∧
    (WIFEXITED (statusAfterReap w trans) = false →
      WIFSIGNALED (statusAfterReap w trans) = false →
      emittedStatus trans (server_run_command_send w trans).1 = [Action.fail2 EFAULT 2]) := by
  have hcond : (!(afterReap w trans).done && (afterReap w trans).pid == 0
      && !pendingOutput trans) = true := by
    simp [afterReap_done, afterReap_pid, hdone, hpid, hpending]
  have hout : (server_run_command_send w trans).1.out = trans.out ++
      ((if reaps w trans then [Action.close_sink 0] else []) ++
      (if WIFEXITED (statusAfterReap w trans) then
        [Action.send_major 0, Action.send_minor (WEXITSTATUS (statusAfterReap w trans))]
      else if WIFSIGNALED (statusAfterReap w trans) then
        if WTERMSIG (statusAfterReap w trans) = SIGALRM then [Action.send_timeout]
        else [Action.fail2 EFAULT (WTERMSIG (statusAfterReap w trans))]
      else [Action.fail2 EFAULT 2])) := by
    rw [server_run_command_send_eq, if_pos hcond]
    simp only [afterReport_out, afterReap_out, afterReap_status, List.append_assoc]
  have hem := emitted_append trans _ _ hout
  refine ⟨?_, ?_, ?_, ?_, ?_, ?_⟩
  · rw [server_run_command_send_eq, if_pos hcond]
    exact afterReport_done _
  · rw [server_run_command_send_eq, if_pos hcond]
    simp only [afterReport_status, afterReap_status]
  · intro h1
    unfold emittedStatus
    rw [hem, if_pos h1]
    by_cases hr : reaps w trans = true <;> simp [hr, Action.isStatus]
  · intro h2 h3
    have h1 : ¬ WIFEXITED (statusAfterReap w trans) = true := by
      intro h1
      rw [WIFEXITED_not_WIFSIGNALED _ h1] at h2
      exact Bool.noConfusion h2
    unfold emittedStatus
    rw [hem, if_neg h1, if_pos h2, if_pos h3]
    by_cases hr : reaps w trans = true <;> simp [hr, Action.isStatus]
  · intro h2 h3
    have h1 : ¬ WIFEXITED (statusAfterReap w trans) = true := by
      intro h1
      rw [WIFEXITED_not_WIFSIGNALED _ h1] at h2
      exact Bool.noConfusion h2
    unfold emittedStatus
    rw [hem, if_neg h1, if_pos h2, if_neg h3]
    by_cases hr : reaps w trans = true <;> simp [hr, Action.isStatus]
  · intro h1 h2
    unfold emittedStatus
    rw [hem]
    by_cases hr : reaps w trans = true <;> simp [hr, h1, h2, Action.isStatus]

/-- Witness of C1: the drained command whose child 1234 is reaped with wait
status 0x0700 reports MAJOR 0 and MINOR 7. -/
theorem server_run_command_send_translates_status_witness :
    emittedStatus drainedCommand (server_run_command_send ⟨1234, 1792⟩ drainedCommand).1 =
      [Action.send_major 0, Action.send_minor 7] :=
  (server_run_command_send_translates_status ⟨1234, 1792⟩ drainedCommand
    (by decide) (by decide) (by decide)).2.2.1 (by decide)

/-- Claim C2: if, when `server_run_command_send` is called, a stdout or stderr
source is attached and has not reached read-EOF, or if the pid stays non-zero
after the waitpid of the call, then the call emits no MAJOR, MINOR or TIMEOUT
packet, calls neither fail nor fail2, and leaves done unchanged. -/
theorem server_run_command_send_waits (w : WaitpidResult) (trans : Transaction)
    (h : pendingOutput trans = true ∨ pidAfterReap w trans ≠ 0) :
    emittedStatus trans (server_run_command_send w trans).1 = [] ∧
    (server_run_command_send w trans).1.done = trans.done := by
  have hcond : ¬ (!(afterReap w trans).done && (afterReap w trans).pid == 0
      && !pendingOutput trans) = true := by
    rcases h with h | h
    · simp [h]
    · simp [afterReap_pid, h]
  rw [server_run_command_send_eq, if_neg hcond]
  refine ⟨?_, afterReap_done w trans⟩
  unfold emittedStatus
  rw [emitted_append trans _ _ (afterReap_out w trans)]
  by_cases hr : reaps w trans = true <;> simp [hr, Action.isStatus]

/-- Witness of C2: the child of the running command is reaped while stdout and
stderr are still open; nothing is reported. -/
theorem server_run_command_send_waits_witness :
    emittedStatus runningCommand (server_run_command_send ⟨1234, 0⟩ runningCommand).1 = [] ∧
    (server_run_command_send ⟨1234, 0⟩ runningCommand).1.done = runningCommand.done :=
  server_run_command_send_waits ⟨1234, 0⟩ runningCommand (Or.inl (by decide))

/-! ## Sequences of calls of the send hook -/

theorem sendTick_eq (s : Transaction) (k : Tick) :
    sendTick s k =
      if !s.done && tickReady s k then afterReport (afterReap k.wait (atTick s k))
      else afterReap k.wait (atTick s k) := by
  unfold sendTick tickReady
  rw [server_run_command_send_eq]
  simp only [afterReap_done, afterReap_pid, atTick, Bool.and_assoc]

theorem sendTick_done (s : Transaction) (k : Tick) :
    (sendTick s k).done = (s.done || tickReady s k) := by
  rw [sendTick_eq]
  cases hd : s.done <;> cases hr : tickReady s k <;>
    simp [afterReport_done, afterReap_done, atTick, hd]

theorem sendTick_pid (s : Transaction) (k : Tick) :
    (sendTick s k).pid = pidAfterReap k.wait (atTick s k) := by
  rw [sendTick_eq]
  split <;> simp [afterReport_pid, afterReap_pid]

theorem report_terminalCount (st : Int) :
    terminalCount
      (if WIFEXITED st then [Action.send_major 0, Action.send_minor (WEXITSTATUS st)]
      else if WIFSIGNALED st then
        if WTERMSIG st = SIGALRM then [Action.send_timeout]
        else [Action.fail2 EFAULT (WTERMSIG st)]
      else [Action.fail2 EFAULT 2]) = 1 := by
  unfold terminalCount
  split
  · simp [Action.isTerminal]
  · split
    · split <;> simp [Action.isTerminal]
    · simp [Action.isTerminal]

theorem sendTick_out (s : Transaction) (k : Tick) :
    emitted s (sendTick s k) =
      (if reaps k.wait (atTick s k) then [Action.close_sink 0] else []) ++
      (if !s.done && tickReady s k then
        (if WIFEXITED (statusAfterReap k.wait (atTick s k)) then
          [Action.send_major 0,
            Action.send_minor (WEXITSTATUS (statusAfterReap k.wait (atTick s k)))]
        else if WIFSIGNALED (statusAfterReap k.wait (atTick s k)) then
          if WTERMSIG (statusAfterReap k.wait (atTick s k)) = SIGALRM then [Action.send_timeout]
          else [Action.fail2 EFAULT (WTERMSIG (statusAfterReap k.wait (atTick s k)))]
        else [Action.fail2 EFAULT 2])
      else []) := by
  apply emitted_append
  rw [sendTick_eq]
  split
  · simp only [afterReport_out, afterReap_out, afterReap_status, List.append_assoc]
    rfl
  · simp only [afterReap_out, List.append_nil]
    rfl

theorem sendTick_terminalCount (s : Transaction) (k : Tick) :
    terminalCount (emitted s (sendTick s k)) =
      if !s.done && tickReady s k then 1 else 0 := by
  rw [sendTick_out]
  have hsplit : ∀ a b : List Action, terminalCount (a ++ b) = terminalCount a + terminalCount b := by
    intro a b
    simp [terminalCount]
  rw [hsplit]
  have h1 : terminalCount (if reaps k.wait (atTick s k) then [Action.close_sink 0] else []) = 0 := by
    split <;> simp [terminalCount, Action.isTerminal]
  rw [h1, Nat.zero_add]
  split
  · exact report_terminalCount _
  · rfl

theorem sendTick_quiet (s : Transaction) (k : Tick) (hd : s.done = true) (hp : s.pid = 0) :
    emitted s (sendTick s k) = [] ∧ (sendTick s k).done = true ∧
      (sendTick s k).status = s.status := by
  have hr : reaps k.wait (atTick s k) = false := by
    simp [reaps, atTick, hp]
  refine ⟨?_, ?_, ?_⟩
  · rw [sendTick_out]
    simp [hr, hd]
  · rw [sendTick_done, hd]
    rfl
  · rw [sendTick_eq]
    simp only [hd, Bool.not_true, Bool.false_and, Bool.false_eq_true, if_false,
      afterReap_status, statusAfterReap, hr]
    rfl

theorem sendTicks_snoc (t : Transaction) (pre : List Tick) (k : Tick) :
    sendTicks t (pre ++ [k]) = sendTick (sendTicks t pre) k := by
  simp [sendTicks, List.foldl_append]

theorem split_snoc {α : Type} (p q pre : List α) (a k : α) :
    p ++ a :: q = pre ++ [k] ↔
      (q = [] ∧ p = pre ∧ a = k) ∨ (∃ q1, q = q1 ++ [k] ∧ pre = p ++ a :: q1) := by
  constructor
  · intro h
    rcases List.eq_nil_or_concat q with hq | ⟨q1, b, hq⟩
    · subst hq
      left
      have h2 : p ++ [a] = pre ++ [k] := h
      have h3 := List.append_inj' h2 rfl
      refine ⟨rfl, h3.1, ?_⟩
      simpa using h3.2
    · subst hq
      right
      have h2 : (p ++ a :: q1) ++ [b] = pre ++ [k] := by simpa using h
      have h3 := List.append_inj' h2 rfl
      have hb : b = k := by simpa using h3.2
      exact ⟨q1, by rw [hb]; simp, h3.1.symm⟩
  · rintro (⟨hq, hp, ha⟩ | ⟨q1, hq, hpre⟩)
    · subst hq hp ha
      rfl
    · subst hq hpre
      simp

/-- Along calls of the hook that start on a transaction that is not done,
done implies that the pid is zero, and done holds exactly when an earlier call
found the child reaped and the output drained. -/
theorem sendTicks_invariant (t : Transaction) (h0 : t.done = false) (pre : List Tick) :
    ((sendTicks t pre).done = true → (sendTicks t pre).pid = 0) ∧
    ((sendTicks t pre).done = true ↔
      ∃ p k q, pre = p ++ k :: q ∧ tickReady (sendTicks t p) k = true) := by
  induction pre using List.reverseRecOn with
  | nil =>
    simp [sendTicks, h0]
  | append_singleton pre k ih =>
    rw [sendTicks_snoc]
    constructor
    · intro hd
      rw [sendTick_pid]
      rw [sendTick_done] at hd
      cases hs : (sendTicks t pre).done
      · rw [hs] at hd
        simp only [Bool.false_or] at hd
        simp only [tickReady, Bool.and_eq_true, beq_iff_eq] at hd
        exact hd.1
      · have hp := ih.1 hs
        simp [pidAfterReap, reaps, atTick, hp]
    · rw [sendTick_done]
      constructor
      · intro hd
        cases hs : (sendTicks t pre).done
        · rw [hs] at hd
          simp only [Bool.false_or] at hd
          exact ⟨pre, k, [], rfl, hd⟩
        · obtain ⟨p, k1, q, hpre, hr⟩ := ih.2.1 hs
          exact ⟨p, k1, q ++ [k], by simp [hpre], hr⟩
      · rintro ⟨p, k1, q, hpre, hr⟩
        rcases (split_snoc p q pre k1 k).1 hpre.symm with ⟨_, hp, hk⟩ | ⟨q1, _, hpre1⟩
        · subst hp hk
          simp [hr]
        · have := ih.2.2 ⟨p, k1, q1, hpre1, hr⟩
          simp [this]

/-- Claim C3: over every sequence of calls of `server_run_command_send` on a
command transaction that starts not done, with any waitpid answers and any
source channel states at the calls, a call emits exactly one terminal outcome
(MINOR, TIMEOUT or fail2) if it is the first call in which the child is reaped
and the output is drained, and none otherwise; and a call made once done is
true emits nothing and changes neither done nor the recorded status. -/
theorem server_run_command_send_one_terminal (trans : Transaction) (pre : List Tick) (k : Tick)
    (h0 : trans.done = false) :
    ((tickReady (sendTicks trans pre) k = true ∧
        ∀ p k1 q, pre = p ++ k1 :: q → tickReady (sendTicks trans p) k1 = false) →
      terminalCount (emitted (sendTicks trans pre) (sendTick (sendTicks trans pre) k)) = 1) ∧
    (¬ (tickReady (sendTicks trans pre) k = true ∧
        ∀ p k1 q, pre = p ++ k1 :: q → tickReady (sendTicks trans p) k1 = false) →
      terminalCount (emitted (sendTicks trans pre) (sendTick (sendTicks trans pre) k)) = 0) ∧
    ((sendTicks trans pre).done = true →
      emitted (sendTicks trans pre) (sendTick (sendTicks trans pre) k) = [] ∧
      (sendTick (sendTicks trans pre) k).done = true ∧
      (sendTick (sendTicks trans pre) k).status = (sendTicks trans pre).status) := by
  obtain ⟨hpid, hdone⟩ := sendTicks_invariant trans h0 pre
  refine ⟨?_, ?_, ?_⟩
  · rintro ⟨hr, hnone⟩
    rw [sendTick_terminalCount]
    cases hs : (sendTicks trans pre).done
    · simp [hr]
    · obtain ⟨p, k1, q, hpre, hready⟩ := hdone.1 hs
      rw [hnone p k1 q hpre] at hready
      exact Bool.noConfusion hready
  · intro hnot
    rw [sendTick_terminalCount]
    cases hs : (sendTicks trans pre).done
    · have hr : tickReady (sendTicks trans pre) k = false := by
        by_contra hne
        have hready : tickReady (sendTicks trans pre) k = true := by simpa using hne
        apply hnot
        refine ⟨hready, ?_⟩
        intro p k1 q hpre
        by_contra hne1
        have hready1 : tickReady (sendTicks trans p) k1 = true := by simpa using hne1
        have := hdone.2 ⟨p, k1, q, hpre, hready1⟩
        rw [hs] at this
        exact Bool.noConfusion this
      simp [hr]
    · simp
  · intro hd
    exact sendTick_quiet _ k hd (hpid hd)

/-- Witness of C3: the running command is polled once while its output is
pending, then its child is reaped with the output drained; a third poll finds
the transaction done and emits nothing. -/
theorem server_run_command_send_one_terminal_witness :
    emitted
        (sendTicks runningCommand
          [⟨⟨0, 0⟩, runningCommand.sources⟩, ⟨⟨1234, 0⟩, drainedCommand.sources⟩])
        (sendTick
          (sendTicks runningCommand
            [⟨⟨0, 0⟩, runningCommand.sources⟩, ⟨⟨1234, 0⟩, drainedCommand.sources⟩])
          ⟨⟨0, 0⟩, drainedCommand.sources⟩) = [] :=
  ((server_run_command_send_one_terminal runningCommand
      [⟨⟨0, 0⟩, runningCommand.sources⟩, ⟨⟨1234, 0⟩, drainedCommand.sources⟩]
      ⟨⟨0, 0⟩, drainedCommand.sources⟩ (by decide)).2.2 (by decide)).1

/-! ## Path joining -/

theorem snprintf_total (PATH_MAX : Nat) (dir file : CString) (hmax : PATH_MAX ≤ INT_MAX) :
    (PATH_MAX ≤ ((snprintf_path PATH_MAX dir file).1 % 4294967296).toNat ↔
      PATH_MAX ≤ dir.length + 1 + file.length) := by
  unfold snprintf_path
  simp only [List.length_append, List.length_singleton]
  unfold INT_MAX at hmax
  by_cases hn : dir.length + 1 + file.length ≤ INT_MAX
  · rw [if_pos hn]
    unfold INT_MAX at hn
    have h1 : ((dir.length + 1 + file.length : Nat) : Int) % 4294967296 =
        ((dir.length + 1 + file.length : Nat) : Int) := by
      apply Int.emod_eq_of_lt
      · exact Int.ofNat_nonneg _
      · omega
    rw [h1, Int.toNat_ofNat]
  · rw [if_neg hn]
    unfold INT_MAX at hn
    have h1 : ((-1 : Int) % 4294967296).toNat = 4294967295 := by decide
    rw [h1]
    constructor <;> intro _ <;> omega

/-- Claim C8: for all strings dir and file (with PATH_MAX an int constant),
`server_build_path` returns NULL if and only if
length(dir) + 1 + length(file) >= PATH_MAX, and otherwise returns exactly dir
followed by "/" followed by file, whose length is strictly less than PATH_MAX. -/
theorem server_build_path_spec (PATH_MAX : Nat) (dir file : CString)
    (hmax : PATH_MAX ≤ INT_MAX) :
    (server_build_path PATH_MAX dir file = none ↔
      dir.length + 1 + file.length ≥ PATH_MAX) ∧
    (dir.length + 1 + file.length < PATH_MAX →
      server_build_path PATH_MAX dir file = some (dir ++ ['/'] ++ file) ∧
      (dir ++ ['/'] ++ file).length < PATH_MAX) := by
  have ht := snprintf_total PATH_MAX dir file hmax
  constructor
  · unfold server_build_path
    simp only [ge_iff_le]
    constructor
    · intro h
      by_contra hlt
      rw [if_neg (fun hc => hlt (ht.1 hc))] at h
      exact Option.noConfusion h
    · intro h
      rw [if_pos (ht.2 h)]
  · intro hlt
    have hnot : ¬ PATH_MAX ≤ ((snprintf_path PATH_MAX dir file).1 % 4294967296).toNat := by
      intro hc
      have := ht.1 hc
      omega
    have hlen : (dir ++ ['/'] ++ file).length = dir.length + 1 + file.length := by
      simp only [List.length_append, List.length_singleton]
    constructor
    · unfold server_build_path
      simp only [ge_iff_le]
      rw [if_neg hnot]
      unfold snprintf_path
      simp only [Option.some.injEq]
      apply List.take_of_length_le
      omega
    · omega

/-- Witness of C8: with PATH_MAX 4096, joining "/home/a" and "f" gives
"/home/a/f". -/
theorem server_build_path_spec_witness :
    server_build_path 4096 ['/', 'h', 'o', 'm', 'e', '/', 'a'] ['f'] =
      some ['/', 'h', 'o', 'm', 'e', '/', 'a', '/', 'f'] :=
  ((server_build_path_spec 4096 ['/', 'h', 'o', 'm', 'e', '/', 'a'] ['f']
    (by decide)).2 (by decide)).1

/-! ## Privileges -/

/-- The restoration either returns with the saved ids in effect, or aborts
with one of them not in effect; the real ids and the descriptors are not
touched. -/
theorem server_restore_privileges_spec (e1 e2 : Option Int) (saved : saved_ids)
    (proc : Process) (hvalid : saved.uid ≠ UINT_MAX) :
    (server_restore_privileges e1 e2 saved proc).proc.ruid = proc.ruid ∧
    (server_restore_privileges e1 e2 saved proc).proc.rgid = proc.rgid ∧
    (server_restore_privileges e1 e2 saved proc).proc.fds = proc.fds ∧
    ((server_restore_privileges e1 e2 saved proc).returns = true →
      (server_restore_privileges e1 e2 saved proc).proc.euid = saved.uid ∧
      (server_restore_privileges e1 e2 saved proc).proc.egid = saved.gid) ∧
    ((server_restore_privileges e1 e2 saved proc).returns = false →
      (server_restore_privileges e1 e2 saved proc).aborts = true ∧
      ((server_restore_privileges e1 e2 saved proc).proc.euid ≠ saved.uid ∨
        (server_restore_privileges e1 e2 saved proc).proc.egid ≠ saved.gid)) := by
  unfold server_restore_privileges
  have h0 : (saved.uid == UINT_MAX) = false := by simpa using hvalid
  simp only [h0, Bool.false_eq_true, if_false]
  cases e1 <;> cases e2 <;> simp only [sys_seteuid, sys_setegid] <;>
    (split <;> [skip; split]) <;> simp_all [Run.proc, Run.returns, Run.aborts]

/-- The tail of the file opener always returns and leaves the ids alone. -/
theorem server_open_file_as_check_ids (a : OpenAnswers) (filemode oflags : Nat) (fd : Int)
    (status : Option Int) (proc : Process) :
    (server_open_file_as_check a filemode oflags fd status proc).returns = true ∧
    (server_open_file_as_check a filemode oflags fd status proc).proc.euid = proc.euid ∧
    (server_open_file_as_check a filemode oflags fd status proc).proc.egid = proc.egid := by
  unfold server_open_file_as_check
  simp only [sys_fstat, sys_fchmod, sys_close]
  cases a.fstat_err <;> cases a.fchmod_err <;> cases a.st_isreg <;>
    by_cases h1 : fd < 0 <;> by_cases h2 : (oflags != O_RDONLY) = true <;>
    simp [h1, h2, Run.returns, Run.proc]

theorem drop_privileges_real_ids (a : OpenAnswers) (user : passwd) (proc : Process) :
    (drop_privileges a user proc).1.ruid = proc.ruid ∧
    (drop_privileges a user proc).1.rgid = proc.rgid ∧
    (drop_privileges a user proc).1.fds = proc.fds := by
  unfold drop_privileges
  cases a.initgroups_err <;> cases a.setegid_err <;> cases a.seteuid_err <;>
    simp [sys_initgroups, sys_setegid, sys_seteuid]

/-- The temporary change of hats for a user other than root: it saves the real
ids; when it reports failure the real ids are in effect; when it does not
return it aborts with one of them not in effect. -/
theorem server_change_hats_temporarily_spec (a : OpenAnswers) (user : passwd)
    (status : Option Int) (proc : Process)
    (hname : user.pw_name ≠ rootName) (hvalid : proc.ruid ≠ UINT_MAX) :
    (server_change_hats_temporarily a user status proc).proc.ruid = proc.ruid ∧
    (server_change_hats_temporarily a user status proc).proc.rgid = proc.rgid ∧
    (∀ b saved st, (server_change_hats_temporarily a user status proc).val = some (b, saved, st) →
      saved = { uid := proc.ruid, gid := proc.rgid } ∧
      (b = false →
        (server_change_hats_temporarily a user status proc).proc.euid = proc.ruid ∧
        (server_change_hats_temporarily a user status proc).proc.egid = proc.rgid)) ∧
    ((server_change_hats_temporarily a user status proc).returns = false →
      (server_change_hats_temporarily a user status proc).aborts = true ∧
      ((server_change_hats_temporarily a user status proc).proc.euid ≠ proc.ruid ∨
        (server_change_hats_temporarily a user status proc).proc.egid ≠ proc.rgid)) := by
  unfold server_change_hats_temporarily
  have h0 : (user.pw_name == rootName) = false := by simpa using hname
  simp only [h0, Bool.false_eq_true, if_false]
  obtain ⟨hr1, hr2, -⟩ := drop_privileges_real_ids a user proc
  generalize drop_privileges a user proc = r at *
  by_cases hfail : r.2 < 0
  · simp only [hfail, if_true]
    have hspec := server_restore_privileges_spec a.restore_seteuid_err a.restore_setegid_err
      { uid := proc.ruid, gid := proc.rgid } r.1 hvalid
    cases hres : server_restore_privileges a.restore_seteuid_err a.restore_setegid_err
      { uid := proc.ruid, gid := proc.rgid } r.1 with
    | ret v p =>
      rw [hres] at hspec
      simp only [Run.proc, Run.returns, Run.aborts, Run.val] at hspec ⊢
      simp_all
    | abort p =>
      rw [hres] at hspec
      simp only [Run.proc, Run.returns, Run.aborts, Run.val] at hspec ⊢
      simp_all
    | child p =>
      rw [hres] at hspec
      simp only [Run.proc, Run.returns, Run.aborts, Run.val] at hspec ⊢
      simp_all
  · simp only [hfail, if_false, Run.proc, Run.returns, Run.aborts, Run.val]
    simp_all

theorem getpwnam_name (db : UserDb) (username : CString) (user : passwd)
    (h : getpwnam db username = some user) : user.pw_name = username := by
  unfold getpwnam at h
  split at h
  · simp only [Option.some.injEq] at h
    rw [← h]
  · exact Option.noConfusion h

/-- Claim C9: for every call of `server_open_file_as` on behalf of a user
other than root, entered with the effective uid and gid equal to the real
ones (the real uid being a valid id, not `(uid_t) -1`), every return leaves the
effective uid and gid at their values at entry, whatever fails on the way; the
only other way the call ends is abort, and then a restoration has not taken
effect. -/
theorem server_open_file_as_restores_ids (db : UserDb) (PATH_MAX : Nat) (a : OpenAnswers)
    (username filename : CString) (filemode oflags : Nat) (status : Option Int)
    (proc : Process)
    (hnonroot : username ≠ rootName)
    (heuid : proc.euid = proc.ruid) (hegid : proc.egid = proc.rgid)
    (hvalid : proc.ruid ≠ UINT_MAX) :
    ((server_open_file_as db PATH_MAX a username filename filemode oflags status proc).returns
        = true →
      (server_open_file_as db PATH_MAX a username filename filemode oflags status proc).proc.euid
        = proc.euid ∧
      (server_open_file_as db PATH_MAX a username filename filemode oflags status proc).proc.egid
        = proc.egid) ∧
    ((server_open_file_as db PATH_MAX a username filename filemode oflags status proc).returns
        = false →
      (server_open_file_as db PATH_MAX a username filename filemode oflags status proc).aborts
        = true ∧
      ((server_open_file_as db PATH_MAX a username filename filemode oflags status proc).proc.euid
          ≠ proc.euid ∨
        (server_open_file_as db PATH_MAX a username filename filemode oflags status proc).proc.egid
          ≠ proc.egid)) := by
  unfold server_open_file_as server_get_user
  cases hu : getpwnam db username with
  | none => simp [Run.returns, Run.proc]
  | some user =>
    have hname : user.pw_name ≠ rootName := by
      rw [getpwnam_name db username user hu]
      exact hnonroot
    simp only [Option.isNone_some, Bool.false_eq_true, if_false]
    generalize (if (filename.head? != some '/') = true then
      server_build_path PATH_MAX user.pw_dir filename else some filename) = built
    cases built with
    | none => simp [Run.returns, Run.proc]
    | some path =>
      have h0 : (username == rootName) = false := by simpa using hnonroot
      simp only [h0, Bool.false_eq_true, if_false]
      have hspec := server_change_hats_temporarily_spec a user status proc hname hvalid
      cases hres : server_change_hats_temporarily a user status proc with
      | abort p =>
        rw [hres] at hspec
        simp only [Run.proc, Run.returns, Run.aborts, Run.val] at hspec ⊢
        simp_all
      | child p =>
        rw [hres] at hspec
        simp only [Run.proc, Run.returns, Run.aborts, Run.val] at hspec ⊢
        simp_all
      | ret v p =>
        rw [hres] at hspec
        obtain ⟨b, saved, st⟩ := v
        simp only [Run.proc, Run.returns, Run.aborts, Run.val] at hspec
        obtain ⟨hru, hrg, hval, -⟩ := hspec
        obtain ⟨hsaved, hb⟩ := hval b saved st rfl
        cases b with
        | false =>
          simp only [Run.proc, Run.returns, Run.aborts, Run.val]
          simp_all
        | true =>
          simp only
          have hvalid2 : saved.uid ≠ UINT_MAX := by rw [hsaved]; exact hvalid
          have hrs := server_restore_privileges_spec a.restore_seteuid_err
            a.restore_setegid_err saved (sys_open a.open_err path oflags filemode p).1 hvalid2
          have hopen : (sys_open a.open_err path oflags filemode p).1.ruid = p.ruid ∧
              (sys_open a.open_err path oflags filemode p).1.rgid = p.rgid := by
            cases a.open_err <;> simp [sys_open]
          cases hres2 : server_restore_privileges a.restore_seteuid_err
            a.restore_setegid_err saved (sys_open a.open_err path oflags filemode p).1 with
          | abort p2 =>
            rw [hres2] at hrs
            simp only [Run.proc, Run.returns, Run.aborts, Run.val] at hrs ⊢
            simp_all
          | child p2 =>
            rw [hres2] at hrs
            simp only [Run.proc, Run.returns, Run.aborts, Run.val] at hrs ⊢
            simp_all
          | ret v2 p2 =>
            rw [hres2] at hrs
            simp only [Run.proc, Run.returns, Run.aborts, Run.val] at hrs
            simp only
            obtain ⟨hret, he, hg⟩ := server_open_file_as_check_ids a filemode oflags
              (sys_open a.open_err path oflags filemode p).2
              (if (sys_open a.open_err path oflags filemode p).2 < 0 then
                some (sys_open a.open_err path oflags filemode p).1.errno else st) p2
            rw [hret, he, hg]
            simp_all

/-- Witness of C9: the server opens a file for alice and the open is denied;
the call returns with the effective ids of root back in place. -/
theorem server_open_file_as_restores_ids_witness :
    (server_open_file_as sampleUsers 4096 openDenied aliceName ['f'] 420 O_RDONLY none
      serverProcess).proc.euid = 0 ∧
    (server_open_file_as sampleUsers 4096 openDenied aliceName ['f'] 420 O_RDONLY none
      serverProcess).proc.egid = 0 :=
  (server_open_file_as_restores_ids sampleUsers 4096 openDenied aliceName ['f'] 420 O_RDONLY none
    serverProcess (by decide) (by decide) (by decide) (by decide)).1 (by decide)

/-! ## The path that is too long -/

theorem server_build_path_too_long (PATH_MAX : Nat) (dir file : CString)
    (hmax : PATH_MAX ≤ INT_MAX) (hlong : PATH_MAX ≤ dir.length + 1 + file.length) :
    server_build_path PATH_MAX dir file = none := by
  unfold server_build_path
  simp only [ge_iff_le]
  rw [if_pos ((snprintf_total PATH_MAX dir file hmax).2 hlong)]

/-- On a relative file name whose join with the home directory of a known
user does not fit PATH_MAX, `server_open_file_as` returns 0 (the C `false`)
with `*status = ENAMETOOLONG`, and makes no system call. -/
theorem server_open_file_as_too_long (db : UserDb) (PATH_MAX : Nat) (a : OpenAnswers)
    (username filename : CString) (filemode oflags : Nat) (status : Option Int)
    (proc : Process) (user : passwd)
    (hu : getpwnam db username = some user) (hrel : filename.head? ≠ some '/')
    (hmax : PATH_MAX ≤ INT_MAX) (hlong : PATH_MAX ≤ user.pw_dir.length + 1 + filename.length) :
    server_open_file_as db PATH_MAX a username filename filemode oflags status proc =
      Run.ret (0, some ENAMETOOLONG) proc := by
  have hnone := server_build_path_too_long PATH_MAX user.pw_dir filename hmax hlong
  unfold server_open_file_as server_get_user
  rw [hu]
  have h0 : (filename.head? != some '/') = true := by simpa using hrel
  simp only [Option.isNone_some, Bool.false_eq_true, if_false, h0, if_true, hnone]

theorem sampleUsers_alice :
    getpwnam sampleUsers aliceName =
      some { pw_name := aliceName, pw_uid := 1000, pw_gid := 100,
             pw_dir := ['/', 'h', 'o', 'm', 'e', '/', 'a', 'l', 'i', 'c', 'e'] } := by
  decide

theorem longName_length : longName.length = 4096 := by
  unfold longName
  exact List.length_replicate 4096 'a'

theorem longName_relative : longName.head? ≠ some '/' := by
  have h : longName = 'a' :: List.replicate 4095 'a' := by
    unfold longName
    exact List.replicate_succ 'a' 4095
  rw [h, List.head?_cons]
  decide

/-- Failing input of C6: for alice and a relative name of 4096 characters
(PATH_MAX 4096) `server_open_file_as` returns 0, not -1, although it opened
nothing and set `*status = ENAMETOOLONG`. -/
theorem server_open_file_as_long_path_returns_zero :
    (server_open_file_as sampleUsers 4096 allSucceed aliceName longName 420
      (O_WRONLY ||| O_CREAT ||| O_TRUNC) none serverProcess).val = some (0, some ENAMETOOLONG) ∧
    (0 : Int) ≠ -1 := by
  constructor
  · rw [server_open_file_as_too_long sampleUsers 4096 allSucceed aliceName longName 420 _ none
      serverProcess _ sampleUsers_alice longName_relative (by decide)
      (by rw [longName_length]; decide)]
    rfl
  · decide

/-- Failing input of C5: an INJECT for alice with a relative name of 4096
characters (PATH_MAX 4096). `server_inject_file` does not fail the
transaction: it attaches a sink on descriptor 0, emits MAJOR 0 and returns
true. -/
theorem server_inject_file_long_path_accepted :
    (server_inject_file sampleUsers 4096 allSucceed true {} ⟨aliceName, longName, 420⟩
      serverProcess).val =
      some ({ sinks := [{ id := 0, fd := 0,
                          callback := some Callback.server_inject_file_write_eof }],
              out := [Action.attach_sink 0 0, Action.send_major 0] }, true) := by
  unfold server_inject_file
  simp only
  rw [server_open_file_as_too_long sampleUsers 4096 allSucceed aliceName longName 420 _ none
      serverProcess _ sampleUsers_alice longName_relative (by decide)
      (by rw [longName_length]; decide)]
  rfl

/-- When fstat reports that the opened object is not a regular file, the tail
of `server_open_file_as` returns -1 with `*status = EISDIR` after closing the
descriptor, and fchmod is not called. -/
theorem server_open_file_as_check_not_regular (a : OpenAnswers) (filemode oflags : Nat)
    (fd : Int) (status : Option Int) (proc : Process)
    (hfd : 0 ≤ fd) (hstat : a.fstat_err = none) (hreg : a.st_isreg = false) :
    server_open_file_as_check a filemode oflags fd status proc =
      Run.ret (-1, some EISDIR)
        { proc with
          calls := proc.calls ++ [Syscall.fstat fd.toNat, Syscall.close fd],
          fds := withoutFd fd proc.fds } := by
  unfold server_open_file_as_check
  have h1 : ¬ fd < 0 := by omega
  simp [h1, hstat, hreg, sys_fstat, sys_close]

/-- Failing input of C7: an EXTRACT for alice with a relative name of 4096
characters (PATH_MAX 4096). `server_open_file_as` returns the non-negative
value 0, which its callers take for a descriptor, without a single system
call: nothing was opened and nothing was checked to be a regular file. -/
theorem server_open_file_as_long_path_unchecked :
    (server_open_file_as sampleUsers 4096 allSucceed aliceName longName 384 O_RDONLY none
      serverProcess).val = some (0, some ENAMETOOLONG) ∧
    (server_open_file_as sampleUsers 4096 allSucceed aliceName longName 384 O_RDONLY none
      serverProcess).proc.calls = [] := by
  rw [server_open_file_as_too_long sampleUsers 4096 allSucceed aliceName longName 384 _ none
      serverProcess _ sampleUsers_alice longName_relative (by decide)
      (by rw [longName_length]; decide)]
  exact ⟨rfl, rfl⟩

/-! ## The command request -/

/-- Counterexample to C4: "echo hi" for root is launched, all three channels
attach and `server_run_command` returns true, yet it has emitted no status
packet at all, so no MAJOR 0, before it returns; and when the send hook later
reports the normal exit with code 0 it emits MAJOR 0 followed by MINOR 0, not
the MINOR packet alone. -/
theorem server_run_command_no_early_major :
    (server_run_command sampleUsers launchSucceeds true true true {} echoCommand
        (0, 0, 0) (0, 0, 0) serverProcess).val.map
      (fun r => (r.2, r.1.out.filter Action.isStatus)) = some (true, []) ∧
    emittedStatus drainedCommand (server_run_command_send ⟨1234, 0⟩ drainedCommand).1 =
      [Action.send_major 0, Action.send_minor 0] := by
  constructor
  · decide
  · decide

/-- Failing input of C10: "echo hi" for root on a tty, with fork failing with
EAGAIN. `server_run_command_as` returns -1 after closing the master pty (4)
only: its two dups (5 and 6) are still open at return. -/
theorem server_run_command_as_tty_fork_failure_leaks :
    (server_run_command_as sampleUsers forkFails echoCommandTty (0, 0, 0) (0, 0, 0) none
        serverProcess).val = some (-1, (5, 6, -1), some 11) ∧
    (server_run_command_as sampleUsers forkFails echoCommandTty (0, 0, 0) (0, 0, 0) none
        serverProcess).proc.fds = [0, 1, 2, 3, 5, 6] ∧
    serverProcess.fds = [0, 1, 2, 3] := by
  refine ⟨?_, ?_, ?_⟩ <;> decide

/-- The report of a normal exit by the send hook: MAJOR 0, then MINOR with the
exit code. -/
theorem send_hook_reports_exit (w : WaitpidResult) (t : Transaction)
    (hdone : t.done = false) (hpid : pidAfterReap w t = 0) (hpending : pendingOutput t = false)
    (hexit : WIFEXITED (statusAfterReap w t) = true) :
    emittedStatus t (server_run_command_send w t).1 =
      [Action.send_major 0, Action.send_minor (WEXITSTATUS (statusAfterReap w t))] := by
  have hcond : (!(afterReap w t).done && (afterReap w t).pid == 0
      && !pendingOutput t) = true := by
    simp [afterReap_done, afterReap_pid, hdone, hpid, hpending]
  have hout : (server_run_command_send w t).1.out = t.out ++
      ((if reaps w t then [Action.close_sink 0] else []) ++
        [Action.send_major 0, Action.send_minor (WEXITSTATUS (statusAfterReap w t))]) := by
    rw [server_run_command_send_eq, if_pos hcond]
    simp only [afterReport_out, afterReap_out, afterReap_status, List.append_assoc, hexit,
      if_true]
  unfold emittedStatus
  rw [emitted_append t _ _ hout]
  by_cases hr : reaps w t = true <;> simp [hr, Action.isStatus]

/-- Claim C4, as amended: for every COMMAND request whose subprocess is
launched and whose channels attach (`server_run_command` returns true),
`server_run_command` emits no status packet, so no MAJOR 0, before it
returns, and it installs the send hook; MAJOR 0 is emitted by that hook,
`server_run_command_send`, in the call that reports a normally exited command,
immediately followed by MINOR with the exit code. -/
theorem server_run_command_major_with_minor (db : UserDb) (a : RunAnswers)
    (attach_stdin attach_stdout attach_stderr : Bool) (trans : Transaction)
    (cmd : twopence_command_t) (command_fds child_fds : Int × Int × Int) (proc : Process)
    (started : Transaction)
    (hret : (server_run_command db a attach_stdin attach_stdout attach_stderr trans cmd
      command_fds child_fds proc).val = some (started, true)) :
    emittedStatus trans started = [] ∧
    started.send = some SendHook.server_run_command_send ∧
    (∀ (w : WaitpidResult) (t : Transaction),
      t.done = false → pidAfterReap w t = 0 → pendingOutput t = false →
      WIFEXITED (statusAfterReap w t) = true →
      emittedStatus t (server_run_command_send w t).1 =
        [Action.send_major 0, Action.send_minor (WEXITSTATUS (statusAfterReap w t))]) := by
  refine ⟨?_, ?_, ?_⟩
  · unfold server_run_command at hret
    cases hr : server_run_command_as db a cmd command_fds child_fds none proc with
    | abort p => rw [hr] at hret; simp [Run.val] at hret
    | child p => rw [hr] at hret; simp [Run.val] at hret
    | ret v p =>
      obtain ⟨pid, cf, st⟩ := v
      rw [hr] at hret
      simp only at hret
      by_cases hpid : pid < 0
      · simp [hpid, Run.val] at hret
      · cases attach_stdin <;> cases attach_stdout <;> cases attach_stderr <;>
          by_cases h2 : cf.2.2 ≥ 0 <;>
          simp [hpid, h2, Run.val, twopence_transaction_attach_local_sink,
            twopence_transaction_attach_local_source, server_run_command_failed,
            server_run_command_install, twopence_transaction_send_eof] at hret <;>
          subst hret <;>
          simp [emittedStatus, emitted, Action.isStatus]
  · unfold server_run_command at hret
    cases hr : server_run_command_as db a cmd command_fds child_fds none proc with
    | abort p => rw [hr] at hret; simp [Run.val] at hret
    | child p => rw [hr] at hret; simp [Run.val] at hret
    | ret v p =>
      obtain ⟨pid, cf, st⟩ := v
      rw [hr] at hret
      simp only at hret
      by_cases hpid : pid < 0
      · simp [hpid, Run.val] at hret
      · cases attach_stdin <;> cases attach_stdout <;> cases attach_stderr <;>
          by_cases h2 : cf.2.2 ≥ 0 <;>
          simp [hpid, h2, Run.val, twopence_transaction_attach_local_sink,
            twopence_transaction_attach_local_source, server_run_command_failed,
            server_run_command_install, twopence_transaction_send_eof] at hret <;>
          subst hret <;>
          rfl
  · intro w t hdone hpid hpending hexit
    exact send_hook_reports_exit w t hdone hpid hpending hexit

/-- Witness of C4 as amended: "echo hi" for root is launched with pipes and
all channels attach. -/
theorem server_run_command_major_with_minor_witness :
    emittedStatus {}
      { pid := 1234,
        sinks := [{ id := 0, fd := 5, name := some ['s', 't', 'd', 'i', 'n'] }],
        sources := [{ id := 1, fd := 6, name := some ['s', 't', 'd', 'o', 'u', 't'] },
                    { id := 2, fd := 8, name := some ['s', 't', 'd', 'e', 'r', 'r'] }],
        recv := some RecvHook.server_run_command_recv,
        send := some SendHook.server_run_command_send,
        out := [Action.attach_sink 0 5, Action.attach_source 1 6, Action.attach_source 2 8] }
      = [] :=
  (server_run_command_major_with_minor sampleUsers launchSucceeds true true true {} echoCommand
    (0, 0, 0) (0, 0, 0) serverProcess _ (by decide)).1

/-! ## The values `server_open_file_as` returns -/

/-- The tail of the file opener on an open descriptor: it either returns -1
with `*status` assigned and the descriptor closed, or it returns the
descriptor, and then fstat succeeded and reported a regular file. -/
theorem server_open_file_as_check_cases (a : OpenAnswers) (filemode oflags : Nat) (fd : Int)
    (status : Option Int) (proc : Process) (hfd : 0 ≤ fd) :
    (∃ e p, server_open_file_as_check a filemode oflags fd status proc = Run.ret (-1, some e) p ∧
      p.fds = withoutFd fd proc.fds) ∨
    (∃ p, server_open_file_as_check a filemode oflags fd status proc = Run.ret (fd, status) p ∧
      p.fds = proc.fds ∧ a.fstat_err = none ∧ a.st_isreg = true) := by
  unfold server_open_file_as_check
  have h1 : ¬ fd < 0 := by omega
  simp only [h1, if_false, sys_fstat, sys_fchmod, sys_close]
  cases h2 : a.fstat_err <;> cases h3 : a.fchmod_err <;> cases h4 : a.st_isreg <;>
    by_cases h5 : (oflags != O_RDONLY) = true <;> simp [h5] <;>
    first
      | exact ⟨_, _, ⟨rfl, rfl⟩, rfl⟩
      | exact Or.inl ⟨_, _, ⟨rfl, rfl⟩, rfl⟩

theorem server_open_file_as_check_closed (a : OpenAnswers) (filemode oflags : Nat) (fd : Int)
    (status : Option Int) (proc : Process) (hfd : fd < 0) :
    server_open_file_as_check a filemode oflags fd status proc = Run.ret (-1, status) proc := by
  unfold server_open_file_as_check
  simp [hfd]

/-- The result of the open inside the file opener: a failure gives -1 and sets
errno, a success gives the lowest free descriptor. -/
theorem sys_open_cases (err : Option Int) (path : CString) (oflags mode : Nat) (proc : Process) :
    (∃ e, err = some e ∧ (sys_open err path oflags mode proc).2 = -1 ∧
      (sys_open err path oflags mode proc).1.errno = e ∧
      (sys_open err path oflags mode proc).1.fds = proc.fds) ∨
    (err = none ∧ (sys_open err path oflags mode proc).2 = (lowestFree proc.fds : Int) ∧
      (sys_open err path oflags mode proc).1.fds = proc.fds ++ [lowestFree proc.fds]) := by
  cases err <;> simp [sys_open]

/-- The open followed by the tail: every return is either -1 with `*status`
assigned, or a descriptor whose open and fstat succeeded and which fstat
reported to be a regular file. -/
theorem open_then_check_cases (a : OpenAnswers) (path : CString) (filemode oflags : Nat)
    (status : Option Int) (p1 p2 : Process)
    (r : Int) (st : Option Int) (p3 : Process)
    (h : server_open_file_as_check a filemode oflags (sys_open a.open_err path oflags filemode p1).2
      (if (sys_open a.open_err path oflags filemode p1).2 < 0 then
        some (sys_open a.open_err path oflags filemode p1).1.errno else status) p2 =
      Run.ret (r, st) p3) :
    (r = -1 ∧ st ≠ none) ∨
    (r = (lowestFree p1.fds : Int) ∧ a.open_err = none ∧ a.fstat_err = none ∧
      a.st_isreg = true) := by
  rcases sys_open_cases a.open_err path oflags filemode p1 with ⟨e, -, hfd, herr, -⟩ | ⟨hnone, hfd, -⟩
  · rw [hfd] at h
    rw [server_open_file_as_check_closed _ _ _ _ _ _ (by decide)] at h
    simp only [Run.ret.injEq, Prod.mk.injEq] at h
    left
    refine ⟨h.1.1.symm, ?_⟩
    rw [← h.1.2]
    simp
  · rw [hfd] at h
    have hnn : (0 : Int) ≤ (lowestFree p1.fds : Int) := Int.ofNat_nonneg _
    rcases server_open_file_as_check_cases a filemode oflags (lowestFree p1.fds : Int)
      (if ((lowestFree p1.fds : Nat) : Int) < 0 then
        some (sys_open a.open_err path oflags filemode p1).1.errno else status) p2 hnn
      with ⟨e, p, heq, -⟩ | ⟨p, heq, -, hstat, hreg⟩
    · rw [heq] at h
      simp only [Run.ret.injEq, Prod.mk.injEq] at h
      left
      refine ⟨h.1.1.symm, ?_⟩
      rw [← h.1.2]
      simp
    · rw [heq] at h
      simp only [Run.ret.injEq, Prod.mk.injEq] at h
      right
      exact ⟨h.1.1.symm, hnone, hstat, hreg⟩

theorem server_restore_privileges_fds (e1 e2 : Option Int) (saved : saved_ids) (proc : Process) :
    (server_restore_privileges e1 e2 saved proc).proc.fds = proc.fds := by
  unfold server_restore_privileges
  cases e1 <;> cases e2 <;> simp only [sys_seteuid, sys_setegid] <;>
    (split <;> [skip; (split <;> [skip; split])]) <;> simp [Run.proc]

theorem server_change_hats_temporarily_fds (a : OpenAnswers) (user : passwd)
    (status : Option Int) (proc : Process) :
    (server_change_hats_temporarily a user status proc).proc.fds = proc.fds := by
  unfold server_change_hats_temporarily
  obtain ⟨-, -, hfds⟩ := drop_privileges_real_ids a user proc
  split
  · rfl
  · simp only
    split
    · have := server_restore_privileges_fds a.restore_seteuid_err a.restore_setegid_err
        { uid := proc.ruid, gid := proc.rgid } (drop_privileges a user proc).1
      cases hres : server_restore_privileges a.restore_seteuid_err a.restore_setegid_err
        { uid := proc.ruid, gid := proc.rgid } (drop_privileges a user proc).1 <;>
        rw [hres] at this <;> simp only [Run.proc] at this ⊢ <;> rw [this, hfds]
    · exact hfds

/-- The part of `server_open_file_as` after the path has been resolved. -/
theorem server_open_file_as_resolved (a : OpenAnswers) (username path : CString)
    (user : passwd) (filemode oflags : Nat) (status : Option Int) (proc : Process)
    (r : Int) (st : Option Int) (p : Process)
    (h : (if (username == rootName) = true then
        server_open_file_as_check a filemode oflags (sys_open a.open_err path oflags filemode proc).2
          (if (sys_open a.open_err path oflags filemode proc).2 < 0 then
            some (sys_open a.open_err path oflags filemode proc).1.errno else status)
          (sys_open a.open_err path oflags filemode proc).1
      else
        match server_change_hats_temporarily a user status proc with
        | Run.abort proc => Run.abort proc
        | Run.child proc => Run.child proc
        | Run.ret (false, _, status) proc => Run.ret (-1, status) proc
        | Run.ret (true, saved, status) proc =>
          match server_restore_privileges a.restore_seteuid_err a.restore_setegid_err saved
              (sys_open a.open_err path oflags filemode proc).1 with
          | Run.abort proc => Run.abort proc
          | Run.child proc => Run.child proc
          | Run.ret _ proc_1 =>
            server_open_file_as_check a filemode oflags
              (sys_open a.open_err path oflags filemode proc).2
              (if (sys_open a.open_err path oflags filemode proc).2 < 0 then
                some (sys_open a.open_err path oflags filemode proc).1.errno else status)
              proc_1) = Run.ret (r, st) p) :
    (r = -1 ∧ st ≠ none) ∨
    (r = (lowestFree proc.fds : Int) ∧ a.open_err = none ∧ a.fstat_err = none ∧
      a.st_isreg = true) := by
  by_cases hroot : (username == rootName) = true
  · rw [if_pos hroot] at h
    exact open_then_check_cases a path filemode oflags status proc _ r st p h
  · rw [if_neg hroot] at h
    have hfds := server_change_hats_temporarily_fds a user status proc
    cases hres : server_change_hats_temporarily a user status proc with
    | abort p1 => rw [hres] at h; exact Run.noConfusion h
    | child p1 => rw [hres] at h; exact Run.noConfusion h
    | ret v p1 =>
      rw [hres] at h hfds
      simp only [Run.proc] at hfds
      obtain ⟨b, saved, st1⟩ := v
      cases b with
      | false =>
        simp only [Run.ret.injEq, Prod.mk.injEq] at h
        left
        refine ⟨h.1.1.symm, ?_⟩
        rw [← h.1.2]
        unfold server_change_hats_temporarily at hres
        split at hres
        · simp at hres
        · simp only at hres
          split at hres
          · split at hres
            · simp only [Run.ret.injEq, Prod.mk.injEq] at hres
              rw [← hres.1.2.2]
              simp
            · exact Run.noConfusion hres
            · exact Run.noConfusion hres
          · simp at hres
      | true =>
        simp only at h
        cases hres2 : server_restore_privileges a.restore_seteuid_err a.restore_setegid_err
            saved (sys_open a.open_err path oflags filemode p1).1 with
        | abort p2 => rw [hres2] at h; exact Run.noConfusion h
        | child p2 => rw [hres2] at h; exact Run.noConfusion h
        | ret v2 p2 =>
          rw [hres2] at h
          simp only at h
          have := open_then_check_cases a path filemode oflags st1 p1 p2 r st p h
          rw [hfds] at this
          exact this

/-- Every value `server_open_file_as` returns: -1 with `*status` assigned; or
0 with `*status = ENAMETOOLONG` and nothing done, on a relative name whose
join with the home directory is too long; or the descriptor it opened (the
lowest free one), whose open and fstat succeeded and which fstat reported to
be a regular file. -/
theorem server_open_file_as_return_values (db : UserDb) (PATH_MAX : Nat) (a : OpenAnswers)
    (username filename : CString) (filemode oflags : Nat) (status : Option Int)
    (proc : Process) (r : Int) (st : Option Int) (p : Process)
    (h : server_open_file_as db PATH_MAX a username filename filemode oflags status proc =
      Run.ret (r, st) p) :
    (r = -1 ∧ st ≠ none) ∨
    (r = 0 ∧ st = some ENAMETOOLONG ∧ p = proc ∧
      ∃ user, getpwnam db username = some user ∧ filename.head? ≠ some '/' ∧
        server_build_path PATH_MAX user.pw_dir filename = none) ∨
    (r = (lowestFree proc.fds : Int) ∧ a.open_err = none ∧ a.fstat_err = none ∧
      a.st_isreg = true) := by
  unfold server_open_file_as server_get_user at h
  cases hu : getpwnam db username with
  | none =>
    rw [hu] at h
    simp only [Option.isNone_none, if_true, Run.ret.injEq, Prod.mk.injEq] at h
    left
    refine ⟨h.1.1.symm, ?_⟩
    rw [← h.1.2]
    simp
  | some user =>
    rw [hu] at h
    simp only [Option.isNone_some, Bool.false_eq_true, if_false] at h
    by_cases hrel : (filename.head? != some '/') = true
    · simp only [hrel, if_true] at h
      cases hb : server_build_path PATH_MAX user.pw_dir filename with
      | none =>
        rw [hb] at h
        simp only [Run.ret.injEq, Prod.mk.injEq] at h
        right; left
        exact ⟨h.1.1.symm, h.1.2.symm, h.2.symm, user, rfl, by simpa using hrel, hb⟩
      | some path =>
        rw [hb] at h
        simp only at h
        rcases server_open_file_as_resolved a username path user filemode oflags status proc
          r st p h with hA | hC
        · exact Or.inl hA
        · exact Or.inr (Or.inr hC)
    · simp only [hrel, Bool.false_eq_true, if_false] at h
      rcases server_open_file_as_resolved a username filename user filemode oflags status proc
        r st p h with hA | hC
      · exact Or.inl hA
      · exact Or.inr (Or.inr hC)

/-! ## Descriptors of the launcher -/

/-- The descriptor the kernel hands out is not one that is already open. -/
theorem lowestFree_not_mem (fds : List Nat) : lowestFree fds ∉ fds := by
  unfold lowestFree
  cases h : (List.range (fds.length + 1)).find? (fun n => !fds.contains n) with
  | some n =>
    have := List.find?_some h
    simpa using this
  | none =>
    exfalso
    rw [List.find?_eq_none] at h
    have hsub : List.range (fds.length + 1) ⊆ fds := by
      intro x hx
      have := h x hx
      simpa using this
    have hle := (List.subperm_of_subset (List.nodup_range _) hsub).length_le
    simp at hle

theorem withoutFd_append (c : Int) (l1 l2 : List Nat) :
    withoutFd c (l1 ++ l2) = withoutFd c l1 ++ withoutFd c l2 := by
  simp [withoutFd]

theorem withoutFd_of_not_mem (c : Nat) (l : List Nat) (h : c ∉ l) :
    withoutFd (c : Int) l = l := by
  unfold withoutFd
  rw [List.filter_eq_self]
  intro n hn
  have : n ≠ c := fun e => h (e ▸ hn)
  simpa using this

/-- Closing both ends of a pipe that was created on top of `fds` gives `fds`
back, also after other descriptors created later have been closed. -/
theorem withoutFd_pipe (fds : List Nat) :
    withoutFd (lowestFree (fds ++ [lowestFree fds]) : Int)
      (withoutFd (lowestFree fds : Int) (fds ++ [lowestFree fds, lowestFree (fds ++ [lowestFree fds])]))
      = fds := by
  have h1 := lowestFree_not_mem fds
  have h2 := lowestFree_not_mem (fds ++ [lowestFree fds])
  generalize lowestFree (fds ++ [lowestFree fds]) = w at *
  generalize lowestFree fds = r at *
  have h3 : w ∉ fds := fun hm => h2 (List.mem_append_left _ hm)
  have h4 : w ≠ r := fun e => h2 (by simp [e])
  rw [withoutFd_append, withoutFd_append, withoutFd_of_not_mem r fds h1,
    withoutFd_of_not_mem w fds h3]
  simp [withoutFd, h4]

/-- In pipe mode no failing call of `server_run_command_as` leaks a
descriptor: whichever pipe call fails, or if argv cannot be built, or if fork
fails, the descriptors open at return are those open at entry. -/
theorem server_run_command_as_pipe_failure_closes (db : UserDb) (a : RunAnswers)
    (cmd : twopence_command_t) (parent_fds child_fds : Int × Int × Int)
    (status : Option Int) (proc : Process)
    (v : Int × (Int × Int × Int) × Option Int) (p : Process)
    (hmode : cmd.request_tty = false)
    (h : server_run_command_as db a cmd parent_fds child_fds status proc = Run.ret v p)
    (hneg : v.1 < 0) :
    p.fds = proc.fds := by
  unfold server_run_command_as server_get_user at h
  cases hu : getpwnam db cmd.user with
  | none =>
    rw [hu] at h
    simp only [Option.isNone_none, if_true, Run.ret.injEq] at h
    rw [← h.2]
  | some user =>
    rw [hu] at h
    simp only [Option.isNone_some, Bool.false_eq_true, if_false, hmode] at h
    simp only [create_pipes, sys_pipe, List.replicate] at h
    cases h0 : a.pipe_err 0 with
    | some e =>
      simp [h0, server_run_command_as_failed, server_run_command_as_out, close_pipes] at h
      rw [← h.2]
    | none =>
      cases h1 : a.pipe_err 1 with
      | some e =>
        simp [h0, h1, server_run_command_as_failed, server_run_command_as_out, close_pipes,
          sys_close] at h
        rw [← h.2]
        simp only
        exact withoutFd_pipe proc.fds
      | none =>
        cases h2 : a.pipe_err 2 with
        | some e =>
          simp [h0, h1, h2, server_run_command_as_failed, server_run_command_as_out, close_pipes,
            sys_close] at h
          rw [← h.2]
          simp only
          have e1 := withoutFd_pipe
            (proc.fds ++ [lowestFree proc.fds, lowestFree (proc.fds ++ [lowestFree proc.fds])])
          simp only [List.append_assoc, List.cons_append, List.nil_append,
            List.singleton_append] at e1
          rw [e1, withoutFd_pipe]
        | none =>
          have e1 := withoutFd_pipe
            (proc.fds ++ [lowestFree proc.fds, lowestFree (proc.fds ++ [lowestFree proc.fds])])
          have e2 := withoutFd_pipe
            (proc.fds ++ [lowestFree proc.fds, lowestFree (proc.fds ++ [lowestFree proc.fds])] ++
              [lowestFree
                (proc.fds ++ [lowestFree proc.fds, lowestFree (proc.fds ++ [lowestFree proc.fds])]),
               lowestFree
                (proc.fds ++ [lowestFree proc.fds, lowestFree (proc.fds ++ [lowestFree proc.fds])]
                  ++ [lowestFree (proc.fds ++
                      [lowestFree proc.fds, lowestFree (proc.fds ++ [lowestFree proc.fds])])])])
          simp only [List.append_assoc, List.cons_append, List.nil_append,
            List.singleton_append] at e1 e2
          by_cases hargv : a.argv_null = true
          · simp [h0, h1, h2, hargv, server_run_command_as_spawn, server_run_command_as_failed,
              server_run_command_as_out, close_pipes, sys_close] at h
            rw [← h.2]
            simp only
            rw [e2, e1, withoutFd_pipe]
          · by_cases hfork : a.fork_ret < 0
            · simp [h0, h1, h2, hargv, hfork, sys_fork, server_run_command_as_spawn,
                server_run_command_as_failed, server_run_command_as_out, close_pipes,
                sys_close] at h
              rw [← h.2]
              simp only
              rw [e2, e1, withoutFd_pipe]
            · by_cases hzero : a.fork_ret = 0
              · simp [h0, h1, h2, hargv, hfork, hzero, sys_fork, server_run_command_as_spawn] at h
              · simp [h0, h1, h2, hargv, hfork, hzero, sys_fork, server_run_command_as_spawn,
                  server_run_command_as_out] at h
                rw [← h.1] at hneg
                exact absurd hneg hfork

/-! ## Setup errors of file transfers -/

/-- When `server_open_file_as` returns -1 with `*status = e`,
`server_inject_file` fails the transaction with `e`, attaches nothing, emits
no MAJOR 0 and returns false. -/
theorem server_inject_file_open_failed (db : UserDb) (PATH_MAX : Nat) (a : OpenAnswers)
    (attach_ok : Bool) (trans : Transaction) (xfer : twopence_file_xfer_t)
    (proc p : Process) (e : Int)
    (h : server_open_file_as db PATH_MAX a xfer.user xfer.remote_name xfer.remote_mode
      (O_WRONLY ||| O_CREAT ||| O_TRUNC) none proc = Run.ret (-1, some e) p) :
    server_inject_file db PATH_MAX a attach_ok trans xfer proc =
      Run.ret (twopence_transaction_fail trans e, false) p := by
  unfold server_inject_file
  simp only [h]
  simp

/-- When `server_open_file_as` returns -1 with `*status = e`,
`server_extract_file` fails the transaction with `e`, attaches nothing and
returns false. -/
theorem server_extract_file_open_failed (db : UserDb) (PATH_MAX : Nat) (a : OpenAnswers)
    (attach_ok : Bool) (trans : Transaction) (xfer : twopence_file_xfer_t)
    (proc p : Process) (e : Int)
    (h : server_open_file_as db PATH_MAX a xfer.user xfer.remote_name 384 O_RDONLY none proc =
      Run.ret (-1, some e) p) :
    server_extract_file db PATH_MAX a attach_ok trans xfer proc =
      Run.ret (twopence_transaction_fail trans e, false) p := by
  unfold server_extract_file
  simp only [h]
  simp

/-- In tty mode, when the master pty and its two dups are opened and fork then
fails, `server_run_command_as` returns the negative pid with the two dups
still open: the descriptors at return are those at entry plus the two dups. -/
theorem server_run_command_as_tty_fork_failure (db : UserDb) (a : RunAnswers)
    (cmd : twopence_command_t) (parent_fds child_fds : Int × Int × Int)
    (status : Option Int) (proc : Process) (user : passwd)
    (hu : getpwnam db cmd.user = some user) (htty : cmd.request_tty = true)
    (hpt : a.posix_openpt_err = none) (hd0 : a.dup0_err = none) (hd1 : a.dup1_err = none)
    (hargv : a.argv_null = false) (hfork : a.fork_ret < 0) :
    (server_run_command_as db a cmd parent_fds child_fds status proc).val =
      some (a.fork_ret,
        ((lowestFree (proc.fds ++ [lowestFree proc.fds]) : Int),
         (lowestFree (proc.fds ++ [lowestFree proc.fds,
            lowestFree (proc.fds ++ [lowestFree proc.fds])]) : Int), -1),
        some a.fork_errno) ∧
    (server_run_command_as db a cmd parent_fds child_fds status proc).proc.fds =
      proc.fds ++ [lowestFree (proc.fds ++ [lowestFree proc.fds]),
        lowestFree (proc.fds ++ [lowestFree proc.fds,
          lowestFree (proc.fds ++ [lowestFree proc.fds])])] := by
  have h1 := lowestFree_not_mem proc.fds
  have h2 := lowestFree_not_mem (proc.fds ++ [lowestFree proc.fds])
  have h3 := lowestFree_not_mem (proc.fds ++ [lowestFree proc.fds,
    lowestFree (proc.fds ++ [lowestFree proc.fds])])
  have hnn : ¬ ((lowestFree proc.fds : Nat) : Int) < 0 := by omega
  unfold server_run_command_as server_get_user
  rw [hu]
  simp only [Option.isNone_some, Bool.false_eq_true, if_false, htty, if_true,
    sys_posix_openpt, hpt, hnn, sys_dup, hd0, hd1, server_run_command_as_spawn, hargv,
    sys_fork, hfork, server_run_command_as_failed, close_pipes, server_run_command_as_out,
    Int.toNat_ofNat, List.append_assoc, List.cons_append, List.nil_append,
    List.singleton_append]
  have hge : ((lowestFree proc.fds : Nat) : Int) ≥ 0 := by omega
  simp only [hge, if_true, Run.val, Run.proc, sys_close, true_and]
  generalize lowestFree (proc.fds ++ [lowestFree proc.fds,
    lowestFree (proc.fds ++ [lowestFree proc.fds])]) = d1 at *
  generalize lowestFree (proc.fds ++ [lowestFree proc.fds]) = d0 at *
  generalize lowestFree proc.fds = m at *
  have e0 : d0 ≠ m := fun e => h2 (by simp [e])
  have e1 : d1 ≠ m := fun e => h3 (by simp [e])
  rw [withoutFd_append, withoutFd_of_not_mem m proc.fds h1]
  simp [withoutFd, e0, e1]

/-! ## The unknown user -/

/-- For a user the database does not know, the launcher returns -1 with
`*status = ENOENT` and leaves the process as it was: no system call is made. -/
theorem server_run_command_as_unknown_user (db : UserDb) (a : RunAnswers)
    (cmd : twopence_command_t) (parent_fds child_fds : Int × Int × Int)
    (status : Option Int) (proc : Process) (hu : getpwnam db cmd.user = none) :
    server_run_command_as db a cmd parent_fds child_fds status proc =
      Run.ret (-1, parent_fds, some ENOENT) proc := by
  unfold server_run_command_as server_get_user
  rw [hu]
  rfl

/-- Claim C11: for every COMMAND request naming a user the user database does
not know, `server_run_command_as` returns a negative pid with
`*status = ENOENT` and makes no system call (no pipe, no pty, no fork: the
process is as at entry), and `server_run_command` fails the transaction with
fail2(ENOENT, 0) as its only action, attaches no channel, installs no recv or
send hook, leaves the pid as it was (0 for a new transaction) and returns
false. -/
theorem server_run_command_unknown_user (db : UserDb) (a : RunAnswers)
    (attach_stdin attach_stdout attach_stderr : Bool) (trans : Transaction)
    (cmd : twopence_command_t) (command_fds child_fds : Int × Int × Int)
    (status : Option Int) (proc : Process) (hu : getpwnam db cmd.user = none) :
    (∃ pid, (server_run_command_as db a cmd command_fds child_fds status proc).val =
        some (pid, command_fds, some ENOENT) ∧ pid < 0) ∧
    (server_run_command_as db a cmd command_fds child_fds status proc).proc = proc ∧
    (∃ failed,
      server_run_command db a attach_stdin attach_stdout attach_stderr trans cmd
        command_fds child_fds proc = Run.ret (failed, false) proc ∧
      emitted trans failed = [Action.fail2 ENOENT 0] ∧
      failed.sinks = trans.sinks ∧ failed.sources = trans.sources ∧
      failed.recv = trans.recv ∧ failed.send = trans.send ∧
      failed.pid = trans.pid ∧ (trans.pid = 0 → failed.pid = 0)) := by
  refine ⟨⟨-1, ?_, by decide⟩, ?_, ⟨twopence_transaction_fail2 trans ENOENT 0, ?_, ?_, rfl, rfl,
    rfl, rfl, rfl, fun h => h⟩⟩
  · rw [server_run_command_as_unknown_user db a cmd command_fds child_fds status proc hu]
    rfl
  · rw [server_run_command_as_unknown_user db a cmd command_fds child_fds status proc hu]
    rfl
  · unfold server_run_command
    rw [server_run_command_as_unknown_user db a cmd command_fds child_fds none proc hu]
    simp
  · exact emitted_append trans _ _ rfl

/-- Witness of C11: "echo hi" for the unknown user "nobodysuch" on the sample
system; the process makes no system call. -/
theorem server_run_command_unknown_user_witness :
    (server_run_command_as sampleUsers launchSucceeds nobodyCommand (0, 0, 0) (0, 0, 0) none
      serverProcess).proc = serverProcess :=
  (server_run_command_unknown_user sampleUsers launchSucceeds true true true {} nobodyCommand
    (0, 0, 0) (0, 0, 0) none serverProcess (by decide)).2.1

/-! ## The receive hook of a command transaction -/

/-- What the receive hook does when the interrupt applies and when it does not. -/
theorem server_run_command_recv_eq (trans : Transaction) (hdr : twopence_hdr_t) :
    server_run_command_recv trans hdr =
      (if interruptApplies trans hdr then
        { trans with
          sinks := trans.sinks.filter (fun _ => false),
          sources := trans.sources.filter (fun _ => false),
          out := trans.out ++
            [Action.kill (-trans.pid) SIGKILL, Action.close_sink 0, Action.close_source 0] }
      else trans, true) := by
  unfold server_run_command_recv interruptApplies
  by_cases h1 : (hdr.type == TWOPENCE_PROTO_TYPE_INTR) = true
  · by_cases h2 : (trans.pid != 0 && !trans.done) = true
    · have h3 : (trans.pid != 0) = true ∧ (!trans.done) = true := by
        simpa [Bool.and_eq_true] using h2
      simp [h1, h3.1, h3.2, twopence_transaction_close_sink, twopence_transaction_close_source]
    · have h3 : (hdr.type == TWOPENCE_PROTO_TYPE_INTR && trans.pid != 0 && !trans.done)
          = false := by
        rw [Bool.and_assoc, h1, Bool.true_and]
        simpa using h2
      rw [if_pos h1, if_neg h2, h3]
      rfl
  · have h3 : (hdr.type == TWOPENCE_PROTO_TYPE_INTR && trans.pid != 0 && !trans.done)
        = false := by
      have : (hdr.type == TWOPENCE_PROTO_TYPE_INTR) = false := by simpa using h1
      rw [this]
      rfl
    rw [if_neg h1, h3]
    rfl

/-- Claim C12: for every command transaction and every incoming packet,
`server_run_command_recv` sends SIGKILL to the process group -pid, closes the
stdin sink and closes all sources if and only if the packet type is INTR, the
pid is non-zero and the transaction is not done; in every other case it sends
no signal, closes no channel and does nothing at all; a signal is never sent
with pid argument 0; it returns true in all cases and never changes pid,
status or done. -/
theorem server_run_command_recv_spec (trans : Transaction) (hdr : twopence_hdr_t) :
    (server_run_command_recv trans hdr).2 = true ∧
    (server_run_command_recv trans hdr).1.pid = trans.pid ∧
    (server_run_command_recv trans hdr).1.status = trans.status ∧
    (server_run_command_recv trans hdr).1.done = trans.done ∧
    (Action.kill (-trans.pid) SIGKILL ∈ emitted trans (server_run_command_recv trans hdr).1 ↔
      (hdr.type = TWOPENCE_PROTO_TYPE_INTR ∧ trans.pid ≠ 0 ∧ trans.done = false)) ∧
    (Action.close_sink 0 ∈ emitted trans (server_run_command_recv trans hdr).1 ↔
      (hdr.type = TWOPENCE_PROTO_TYPE_INTR ∧ trans.pid ≠ 0 ∧ trans.done = false)) ∧
    (Action.close_source 0 ∈ emitted trans (server_run_command_recv trans hdr).1 ↔
      (hdr.type = TWOPENCE_PROTO_TYPE_INTR ∧ trans.pid ≠ 0 ∧ trans.done = false)) ∧
    ((hdr.type = TWOPENCE_PROTO_TYPE_INTR ∧ trans.pid ≠ 0 ∧ trans.done = false) →
      emitted trans (server_run_command_recv trans hdr).1 =
        [Action.kill (-trans.pid) SIGKILL, Action.close_sink 0, Action.close_source 0] ∧
      twopence_transaction_find_source (server_run_command_recv trans hdr).1 TWOPENCE_STDOUT
        = none ∧
      (∀ ch ∈ (server_run_command_recv trans hdr).1.sinks, ch.id ≠ TWOPENCE_STDIN) ∧
      (server_run_command_recv trans hdr).1.sources = []) ∧
    (¬ (hdr.type = TWOPENCE_PROTO_TYPE_INTR ∧ trans.pid ≠ 0 ∧ trans.done = false) →
      (server_run_command_recv trans hdr).1 = trans ∧
      emitted trans (server_run_command_recv trans hdr).1 = []) ∧
    (∀ sig, Action.kill 0 sig ∉ emitted trans (server_run_command_recv trans hdr).1) := by
  have hiff : interruptApplies trans hdr = true ↔
      (hdr.type = TWOPENCE_PROTO_TYPE_INTR ∧ trans.pid ≠ 0 ∧ trans.done = false) := by
    unfold interruptApplies
    simp [Bool.and_eq_true, and_assoc]
  rw [server_run_command_recv_eq]
  by_cases hc : interruptApplies trans hdr = true
  · have hcond := hiff.1 hc
    have hem : emitted trans
        { trans with
          sinks := trans.sinks.filter (fun _ => false),
          sources := trans.sources.filter (fun _ => false),
          out := trans.out ++
            [Action.kill (-trans.pid) SIGKILL, Action.close_sink 0, Action.close_source 0] } =
        [Action.kill (-trans.pid) SIGKILL, Action.close_sink 0, Action.close_source 0] :=
      emitted_append trans _ _ rfl
    simp only [hc, if_true, hem]
    refine ⟨?_, ?_, ?_, ?_, ?_, ?_, ?_, ?_, ?_, ?_⟩
    · trivial
    · trivial
    · trivial
    · trivial
    · simp [hcond]
    · simp [hcond]
    · simp [hcond]
    · intro _
      refine ⟨?_, ?_, ?_, ?_⟩
      · trivial
      · simp [twopence_transaction_find_source]
      · simp
      · simp
    · intro hn
      exact absurd hcond hn
    · intro sig hmem
      simp at hmem
      exact hcond.2.1 hmem.1
  · have hcond : ¬ (hdr.type = TWOPENCE_PROTO_TYPE_INTR ∧ trans.pid ≠ 0 ∧ trans.done = false) :=
      fun h => hc (hiff.2 h)
    have hem : emitted trans trans = [] := by simp [emitted]
    simp only [hc, Bool.false_eq_true, if_false, hem]
    refine ⟨?_, ?_, ?_, ?_, ?_, ?_, ?_, ?_, ?_, ?_⟩
    · trivial
    · trivial
    · trivial
    · trivial
    · simp [hcond]
    · simp [hcond]
    · simp [hcond]
    · intro h
      exact absurd h hcond
    · intro _
      refine ⟨?_, ?_⟩ <;> trivial
    · intro sig hmem
      simp at hmem

end Twopence
